import Mathlib

/-! # Privilege management of the Singularity container runtime

A shallow embedding of `src/privilege.c`.  The process-wide `uinfo` record and
the credentials the kernel keeps for the process are one explicit `World`
value; every C function becomes a function `World → Outcome α`, where an
`Outcome` is either a normal return or the `ABORT(255)` that ends the process.

What the C file takes from outside is an explicit input of the model:

* the build flag `SINGULARITY_NOSUID` is the Boolean argument `nosuid`;
* `str2int` (from `util.c`) is the argument `str2int : String → Option Int`;
* `getenv` is the record `Environ`;
* `singularity_ns_user_enabled()` is the integer argument `ns`;
* the results of `fopen`, `fprintf` and `fclose` on the three control files
  are the record `FileOracle`;
* the identity system calls follow the Linux rules for a process whose
  privilege is decided by its effective user id (`credentials(7)`,
  `setreuid(2)`, `setgid(2)`, `seteuid(3)`, `setgroups(2)`).

Diagnostics printed with `message` carry no state and are left out; every
system call that is attempted and every operation on a control file is
appended to `World.trace`.
-/

namespace Singularity

/-! ## Data model -/

/-- The value `(uid_t) -1` of a 32-bit id: "leave unchanged" for `setreuid` and
`setregid`, and never the id of a process. -/
def ID_NONE : Nat := 4294967295

/-- One constructor for each `ABORT(255)` of `privilege.c`, named after the
function and the test that reaches it. -/
inductive Fatal where
  | init_uid_without_gid
  | init_uid_not_integer
  | init_uid_below_500
  | init_uid_above_65534
  | init_gid_without_uid
  | init_gid_not_integer
  | init_gid_below_500
  | init_gid_above_65534
  | init_getgroups
  | userns_setgroups_close
  | userns_setgroups_open
  | userns_gid_map_close
  | userns_gid_map_open
  | userns_uid_map_close
  | userns_uid_map_open
  | escalate_denied
  | drop_not_ready
  | drop_setegid
  | drop_seteuid
  | drop_target_real_gid
  | drop_real_gid
  | drop_target_real_uid
  | drop_real_uid
  | perm_not_ready
  | perm_setgroups_open
  | perm_gid_map_open
  | perm_uid_map_open
  | perm_setgid
  | perm_setregid
  | perm_setreuid
  | perm_confirm_gid
  | perm_confirm_uid
  | getuid_not_ready
  | getgid_not_ready
  | getgids_not_ready
  | getgidcount_not_ready
  deriving DecidableEq, Repr

/-- The record `struct PRIV_INFO` (the static `uinfo`).  The array `gids` is
the list of its elements, the null pointer being the empty list. -/
structure PRIV_INFO where
  ready : Int
  uid : Nat
  gid : Nat
  gids : List Nat
  gids_count : Nat
  userns_ready : Int
  disable_setgroups : Int
  orig_uid : Nat
  orig_gid : Nat
  orig_pid : Int
  target_mode : Int
  deriving DecidableEq, Repr

/-- The record after `memset(&uinfo, 0, sizeof(uinfo))`. -/
def PRIV_INFO.zero : PRIV_INFO :=
  { ready := 0, uid := 0, gid := 0, gids := [], gids_count := 0,
    userns_ready := 0, disable_setgroups := 0, orig_uid := 0, orig_gid := 0,
    orig_pid := 0, target_mode := 0 }

/-- What the process did to the outside, in order: the identity system calls
with their arguments and return value, and the operations on control files
with their success flag. -/
inductive Event where
  | seteuid (id : Nat) (ret : Int)
  | setegid (id : Nat) (ret : Int)
  | setgid (id : Nat) (ret : Int)
  | setregid (rid eid : Nat) (ret : Int)
  | setreuid (rid eid : Nat) (ret : Int)
  | setgroups (count : Nat) (list : List Nat) (ret : Int)
  | fopen (path : String) (ok : Bool)
  | fprintf (path : String) (text : String) (ok : Bool)
  | fclose (path : String) (ok : Bool)
  deriving DecidableEq, Repr

/-- The state of the process: the credentials held by the kernel (real,
effective and saved user and group ids, supplementary groups), the pid, the
static `uinfo`, and the trace of what the process did. -/
structure World where
  ruid : Nat
  euid : Nat
  suid : Nat
  rgid : Nat
  egid : Nat
  sgid : Nat
  groups : List Nat
  pid : Int
  uinfo : PRIV_INFO
  trace : List Event
  deriving DecidableEq, Repr

/-- The result of running a function of `privilege.c`: it returns `val` in
world `w`, or the process ends at `ABORT(retval)` reached at `site`, in the
world `w` it had then. -/
inductive Outcome (α : Type) where
  | ok (val : α) (w : World)
  | abort (retval : Nat) (site : Fatal) (w : World)
  deriving DecidableEq, Repr

/-- The world in which an outcome ends. -/
def Outcome.world {α : Type} : Outcome α → World
  | .ok _ w => w
  | .abort _ _ w => w

/-- Whether the function returned to its caller. -/
def Outcome.returned {α : Type} : Outcome α → Bool
  | .ok _ _ => true
  | .abort _ _ _ => false

/-- The values of the two environment variables read by `priv_init`, `none`
when `getenv` returns the null pointer. -/
structure Environ where
  SINGULARITY_TARGET_UID : Option String
  SINGULARITY_TARGET_GID : Option String
  deriving DecidableEq, Repr

/-- What happens to one control file: whether `fopen` returns a stream, whether
`fprintf` succeeds, whether `fclose` returns 0. -/
structure FileOutcome where
  open_ok : Bool
  write_ok : Bool
  close_ok : Bool
  deriving DecidableEq, Repr

/-- The outcomes of the three control files of one call. -/
structure FileOracle where
  setgroups : FileOutcome
  gid_map : FileOutcome
  uid_map : FileOutcome
  deriving DecidableEq, Repr

/-! ## The kernel: identity system calls -/

/-- Append an event to the trace. -/
def World.log (w : World) (e : Event) : World :=
  { w with trace := w.trace ++ [e] }

/-- The call `getuid()`: the real user id. -/
def getuid (w : World) : Nat := w.ruid

/-- The call `getgid()`: the real group id. -/
def getgid (w : World) : Nat := w.rgid

/-- The call `getpid()`. -/
def getpid (w : World) : Int := w.pid

/-- The call `seteuid(e)`: `EINVAL` for `(uid_t) -1`; allowed to a privileged
process, or when `e` is the real, effective or saved user id. -/
def seteuid (e : Nat) (w : World) : Int × World :=
  if e ≠ ID_NONE ∧ (w.euid = 0 ∨ e = w.ruid ∨ e = w.euid ∨ e = w.suid) then
    (0, { w with euid := e, trace := w.trace ++ [Event.seteuid e 0] })
  else
    (-1, w.log (Event.seteuid e (-1)))

/-- The call `setegid(g)`: `EINVAL` for `(gid_t) -1`; allowed to a privileged
process, or when `g` is the real, effective or saved group id. -/
def setegid (g : Nat) (w : World) : Int × World :=
  if g ≠ ID_NONE ∧ (w.euid = 0 ∨ g = w.rgid ∨ g = w.egid ∨ g = w.sgid) then
    (0, { w with egid := g, trace := w.trace ++ [Event.setegid g 0] })
  else
    (-1, w.log (Event.setegid g (-1)))

/-- The call `setgid(g)`: a privileged process sets the real, effective and
saved group ids; another process may set its effective group id to its real or
saved one. -/
def setgid (g : Nat) (w : World) : Int × World :=
  if g = ID_NONE then (-1, w.log (Event.setgid g (-1)))
  else if w.euid = 0 then
    (0, { w with rgid := g, egid := g, sgid := g,
                 trace := w.trace ++ [Event.setgid g 0] })
  else if g = w.rgid ∨ g = w.sgid then
    (0, { w with egid := g, trace := w.trace ++ [Event.setgid g 0] })
  else (-1, w.log (Event.setgid g (-1)))

/-- The call `setregid(r, e)`.  An argument `(gid_t) -1` leaves that id
unchanged.  An unprivileged process may set the real id to the real or
effective one and the effective id to the real, effective or saved one.  The
saved id becomes the new effective id when the real id is set, or when the
effective id is set to a value other than the old real id. -/
def setregid (r e : Nat) (w : World) : Int × World :=
  if (r = ID_NONE ∨ w.euid = 0 ∨ r = w.rgid ∨ r = w.egid) ∧
     (e = ID_NONE ∨ w.euid = 0 ∨ e = w.rgid ∨ e = w.egid ∨ e = w.sgid) then
    let new_r := if r = ID_NONE then w.rgid else r
    let new_e := if e = ID_NONE then w.egid else e
    let new_s := if r ≠ ID_NONE ∨ (e ≠ ID_NONE ∧ e ≠ w.rgid) then new_e else w.sgid
    (0, { w with rgid := new_r, egid := new_e, sgid := new_s,
                 trace := w.trace ++ [Event.setregid r e 0] })
  else (-1, w.log (Event.setregid r e (-1)))

/-- The call `setreuid(r, e)`, with the rules of `setregid` on the user ids. -/
def setreuid (r e : Nat) (w : World) : Int × World :=
  if (r = ID_NONE ∨ w.euid = 0 ∨ r = w.ruid ∨ r = w.euid) ∧
     (e = ID_NONE ∨ w.euid = 0 ∨ e = w.ruid ∨ e = w.euid ∨ e = w.suid) then
    let new_r := if r = ID_NONE then w.ruid else r
    let new_e := if e = ID_NONE then w.euid else e
    let new_s := if r ≠ ID_NONE ∨ (e ≠ ID_NONE ∧ e ≠ w.ruid) then new_e else w.suid
    (0, { w with ruid := new_r, euid := new_e, suid := new_s,
                 trace := w.trace ++ [Event.setreuid r e 0] })
  else (-1, w.log (Event.setreuid r e (-1)))

/-- The largest group list the kernel accepts (`NGROUPS_MAX`). -/
def NGROUPS_MAX : Nat := 65536

/-- The call `setgroups(count, list)`: only for a privileged process, and for
at most `NGROUPS_MAX` groups; it installs the first `count` elements, which the
kernel keeps sorted by increasing id. -/
def setgroups (count : Nat) (list : List Nat) (w : World) : Int × World :=
  if w.euid = 0 ∧ count ≤ NGROUPS_MAX then
    (0, { w with groups := (list.take count).insertionSort (fun a b => a ≤ b),
                 trace := w.trace ++ [Event.setgroups count list 0] })
  else (-1, w.log (Event.setgroups count list (-1)))

/-- The call `getgroups(size, list)`: with `size = 0` it returns the number of
supplementary groups and stores nothing; with a `size` smaller than that number
it fails; otherwise it stores the groups and returns their number. -/
def getgroups (size : Int) (w : World) : Int × List Nat :=
  if size = 0 then ((w.groups.length : Int), [])
  else if size < (w.groups.length : Int) then (-1, [])
  else ((w.groups.length : Int), w.groups)

/-! ## C conversions and formatting -/

/-- A 32-bit pattern read as a signed `int`. -/
def int_of_bits32 (v : Nat) : Int :=
  if v % 4294967296 < 2147483648 then ((v % 4294967296 : Nat) : Int)
  else ((v % 4294967296 : Nat) : Int) - 4294967296

/-- Conversion of a `long int` to `uid_t` or `gid_t` (32 bits, unsigned). -/
def id_of_long (v : Int) : Nat := (v % 4294967296).toNat

/-- Conversion of an `int` to `size_t` (64 bits, unsigned). -/
def size_of_int (v : Int) : Nat := (v % 18446744073709551616).toNat

/-- Conversion of a `size_t` to the `int` parameter of `getgroups`. -/
def int_of_size (n : Nat) : Int := int_of_bits32 n

/-- The directive `%i` applied to a `uid_t` or `gid_t` argument: the 32 bits
are printed as a signed decimal. -/
def fmt_i (v : Nat) : String := toString (int_of_bits32 v)

/-- The directive `%d` applied to a `pid_t`. -/
def fmt_d (v : Int) : String := toString v

/-- The path `/proc/<pid>/<name>` built by `snprintf`. -/
def proc_path (pid : Int) (name : String) : String :=
  "/proc/" ++ fmt_d pid ++ "/" ++ name

/-! ## Control files -/

/-- How the block that opens, writes and closes one control file ended. -/
inductive FileStatus where
  | open_failed
  | close_failed
  | written
  deriving DecidableEq, Repr

/-- The block repeated for each control file:
`fp = fopen(path, "w+"); if (fp != NULL) { fprintf(fp, text); if (fclose(fp) < 0) ... } else ...`.
The value of `fprintf` is not looked at by the source; `fclose` is called
whenever the file was opened. -/
def write_control (path text : String) (fo : FileOutcome) (w : World) :
    FileStatus × World :=
  if fo.open_ok then
    let w1 := w.log (Event.fopen path true)
    let w2 := w1.log (Event.fprintf path text fo.write_ok)
    let w3 := w2.log (Event.fclose path fo.close_ok)
    if fo.close_ok then (FileStatus.written, w3) else (FileStatus.close_failed, w3)
  else
    (FileStatus.open_failed, w.log (Event.fopen path false))

/-! ## The functions of `privilege.c` -/

/-- The function `priv_getuid`. -/
def priv_getuid (w : World) : Outcome Nat :=
  if w.uinfo.ready = 0 then .abort 255 .getuid_not_ready w
  else .ok w.uinfo.uid w

/-- The function `priv_getgid`. -/
def priv_getgid (w : World) : Outcome Nat :=
  if w.uinfo.ready = 0 then .abort 255 .getgid_not_ready w
  else .ok w.uinfo.gid w

/-- The function `priv_getgids`. -/
def priv_getgids (w : World) : Outcome (List Nat) :=
  if w.uinfo.ready = 0 then .abort 255 .getgids_not_ready w
  else .ok w.uinfo.gids w

/-- The function `priv_getgidcount`; the `size_t` count is returned as `int`. -/
def priv_getgidcount (w : World) : Outcome Int :=
  if w.uinfo.ready = 0 then .abort 255 .getgidcount_not_ready w
  else .ok (int_of_bits32 w.uinfo.gids_count) w

/-- The function `priv_escalate`.  The second call of
`(seteuid(0) < 0) || (setegid(0) < 0)` is made only when the first succeeded. -/
def priv_escalate (w : World) : Outcome Unit :=
  if getuid w ≠ 0 then
    let r1 := seteuid 0 w
    if r1.1 < 0 then .abort 255 .escalate_denied r1.2
    else
      let r2 := setegid 0 r1.2
      if r2.1 < 0 then .abort 255 .escalate_denied r2.2
      else .ok () r2.2
  else .ok () w

/-- The test of the real group id at the end of `priv_drop`: the site of the
abort it reaches, if any. -/
def drop_confirm_gid (nosuid : Bool) (w : World) : Option Fatal :=
  if getgid w ≠ w.uinfo.gid then
    if nosuid then
      if w.uinfo.target_mode ≠ 0 ∧ getgid w ≠ 0 then some .drop_target_real_gid
      else if w.uinfo.target_mode = 0 then some .drop_real_gid
      else none
    else some .drop_real_gid
  else none

/-- The test of the real user id at the end of `priv_drop`. -/
def drop_confirm_uid (nosuid : Bool) (w : World) : Option Fatal :=
  if getuid w ≠ w.uinfo.uid then
    if nosuid then
      if w.uinfo.target_mode ≠ 0 ∧ getuid w ≠ 0 then some .drop_target_real_uid
      else if w.uinfo.target_mode = 0 then some .drop_real_uid
      else none
    else some .drop_real_uid
  else none

/-- The function `priv_drop`. -/
def priv_drop (nosuid : Bool) (w : World) : Outcome Unit :=
  if w.uinfo.ready ≠ 1 then .abort 255 .drop_not_ready w
  else if getuid w ≠ 0 then
    let r1 := setegid w.uinfo.gid w
    if r1.1 < 0 then .abort 255 .drop_setegid r1.2
    else
      let r2 := seteuid r1.2.uinfo.uid r1.2
      if r2.1 < 0 then .abort 255 .drop_seteuid r2.2
      else
        match drop_confirm_gid nosuid r2.2 with
        | some site => .abort 255 site r2.2
        | none =>
          match drop_confirm_uid nosuid r2.2 with
          | some site => .abort 255 site r2.2
          | none => .ok () r2.2
  else .ok () w

/-- The function `priv_userns_init`: the three control files in the order
setgroups, gid_map, uid_map; a failed open or close is fatal. -/
def priv_userns_init (o : FileOracle) (w : World) : Outcome Unit :=
  match priv_getuid w with
  | .abort r s wa => .abort r s wa
  | .ok uid w1 =>
  match priv_getgid w1 with
  | .abort r s wa => .abort r s wa
  | .ok gid w2 =>
    let f1 := write_control (proc_path (getpid w2) "setgroups") "deny\n" o.setgroups w2
    match f1.1 with
    | .close_failed => .abort 255 .userns_setgroups_close f1.2
    | .open_failed => .abort 255 .userns_setgroups_open f1.2
    | .written =>
      let f2 := write_control (proc_path (getpid f1.2) "gid_map")
        ("0 " ++ fmt_i gid ++ " 1\n") o.gid_map f1.2
      match f2.1 with
      | .close_failed => .abort 255 .userns_gid_map_close f2.2
      | .open_failed => .abort 255 .userns_gid_map_open f2.2
      | .written =>
        let f3 := write_control (proc_path (getpid f2.2) "uid_map")
          ("0 " ++ fmt_i uid ++ " 1\n") o.uid_map f2.2
        match f3.1 with
        | .close_failed => .abort 255 .userns_uid_map_close f3.2
        | .open_failed => .abort 255 .userns_uid_map_open f3.2
        | .written => .ok () f3.2

/-- The first branch of `priv_drop_perm`, taken when
`singularity_ns_user_enabled() == 0`: the three control files with the mapping
reversed.  A failed open is fatal, a failed close is not (its `ABORT` is
commented out), and the branch ends in `return`. -/
def drop_perm_maps (o : FileOracle) (w : World) : Outcome Unit :=
  match priv_getuid w with
  | .abort r s wa => .abort r s wa
  | .ok uid w1 =>
  match priv_getgid w1 with
  | .abort r s wa => .abort r s wa
  | .ok gid w2 =>
    let f1 := write_control (proc_path (getpid w2) "setgroups") "deny\n" o.setgroups w2
    match f1.1 with
    | .open_failed => .abort 255 .perm_setgroups_open f1.2
    | _ =>
      let f2 := write_control (proc_path (getpid f1.2) "gid_map")
        (fmt_i gid ++ " 0 1\n") o.gid_map f1.2
      match f2.1 with
      | .open_failed => .abort 255 .perm_gid_map_open f2.2
      | _ =>
        let f3 := write_control (proc_path (getpid f2.2) "uid_map")
          (fmt_i uid ++ " 0 1\n") o.uid_map f2.2
        match f3.1 with
        | .open_failed => .abort 255 .perm_uid_map_open f3.2
        | _ => .ok () f3.2

/-- The second branch of `priv_drop_perm`, taken when `priv_getuid() != 0`:
reset of the supplementary groups unless `userns_ready` (a failure is not
fatal), then `setgid`, `setregid`, `setreuid`, each fatal on failure. -/
def drop_perm_setuid (w : World) : Outcome Unit :=
  let w1 := if w.uinfo.userns_ready = 0
            then (setgroups w.uinfo.gids_count w.uinfo.gids w).2 else w
  let r2 := setgid w1.uinfo.gid w1
  if r2.1 < 0 then .abort 255 .perm_setgid r2.2
  else
    let r3 := setregid r2.2.uinfo.gid r2.2.uinfo.gid r2.2
    if r3.1 < 0 then .abort 255 .perm_setregid r3.2
    else
      let r4 := setreuid r3.2.uinfo.uid r3.2.uinfo.uid r3.2
      if r4.1 < 0 then .abort 255 .perm_setreuid r4.2
      else .ok () r4.2

/-- The two tests at the end of `priv_drop_perm`: the real group id, then the
real user id, against the stored baseline. -/
def drop_perm_confirm (w : World) : Outcome Unit :=
  if getgid w ≠ w.uinfo.gid then .abort 255 .perm_confirm_gid w
  else if getuid w ≠ w.uinfo.uid then .abort 255 .perm_confirm_uid w
  else .ok () w

/-- The function `priv_drop_perm`; `ns` is the value returned by
`singularity_ns_user_enabled()`. -/
def priv_drop_perm (ns : Int) (o : FileOracle) (w : World) : Outcome Unit :=
  if w.uinfo.ready ≠ 1 then .abort 255 .perm_not_ready w
  else if ns = 0 then drop_perm_maps o w
  else
    match priv_getuid w with
    | .abort r s wa => .abort r s wa
    | .ok uid w1 =>
      if uid ≠ 0 then
        match drop_perm_setuid w1 with
        | .abort r s wa => .abort r s wa
        | .ok _ w2 => drop_perm_confirm w2
      else drop_perm_confirm w1

/-- The treatment of one target variable in `priv_init`: `-1` when the variable
is not set; otherwise `str2int`, then the tests `< 500` and `> 65534`, each
with the site of its abort. -/
def target_value (str2int : String → Option Int) (str : Option String)
    (not_integer below above : Fatal) : Except Fatal Int :=
  match str with
  | none => .ok (-1)
  | some s =>
    match str2int s with
    | none => .error not_integer
    | some v =>
      if v < 500 then .error below
      else if v > 65534 then .error above
      else .ok v

/-- The block of `priv_init` compiled under `SINGULARITY_NOSUID` and run when
`getuid() == 0`: it reads and checks the two target variables and returns
`(target_uid, target_gid)`. -/
def priv_init_target (str2int : String → Option Int) (env : Environ) (w : World) :
    Outcome (Int × Int) :=
  let target_uid_str := env.SINGULARITY_TARGET_UID
  let target_gid_str := env.SINGULARITY_TARGET_GID
  if target_uid_str.isSome ∧ target_gid_str.isNone then
    .abort 255 .init_uid_without_gid w
  else
    match target_value str2int target_uid_str
        .init_uid_not_integer .init_uid_below_500 .init_uid_above_65534 with
    | .error site => .abort 255 site w
    | .ok target_uid =>
      if target_uid_str.isNone ∧ target_gid_str.isSome then
        .abort 255 .init_gid_without_uid w
      else
        match target_value str2int target_gid_str
            .init_gid_not_integer .init_gid_below_500 .init_gid_above_65534 with
        | .error site => .abort 255 site w
        | .ok target_gid => .ok (target_uid, target_gid) w

/-- The function `priv_init`.  `nosuid` tells whether the file was compiled
with `SINGULARITY_NOSUID`. -/
def priv_init (nosuid : Bool) (str2int : String → Option Int) (env : Environ)
    (w0 : World) : Outcome Unit :=
  let w := { w0 with uinfo := PRIV_INFO.zero }
  match (if nosuid ∧ getuid w = 0 then priv_init_target str2int env w
         else Outcome.ok ((-1 : Int), (-1 : Int)) w) with
  | .abort r s wa => .abort r s wa
  | .ok (target_uid, target_gid) w1 =>
    if target_uid ≥ 500 ∧ target_gid ≥ 500 then
      let w2 := { w1 with uinfo := { w1.uinfo with
        target_mode := 1, uid := id_of_long target_uid, gid := id_of_long target_gid,
        gids_count := 0, gids := [] } }
      priv_drop nosuid { w2 with uinfo := { w2.uinfo with ready := 1 } }
    else
      let count := size_of_int (getgroups 0 w1).1
      let w2 := { w1 with uinfo := { w1.uinfo with
        uid := getuid w1, gid := getgid w1, gids_count := count } }
      let g := getgroups (int_of_size w2.uinfo.gids_count) w2
      if g.1 < 0 then
        .abort 255 .init_getgroups { w2 with uinfo := { w2.uinfo with gids := g.2 } }
      else
        let w3 := { w2 with uinfo := { w2.uinfo with gids := g.2 } }
        priv_drop nosuid { w3 with uinfo := { w3.uinfo with ready := 1 } }

/-! ## Definitions used to state the properties -/

/-- The three events of a control file that was opened. -/
def control_events (path text : String) (fo : FileOutcome) : List Event :=
  [Event.fopen path true, Event.fprintf path text fo.write_ok, Event.fclose path fo.close_ok]

/-- The events of the first branch of `priv_drop_perm` when the three control
files are opened: open, write and close of setgroups, gid_map and uid_map, in
that order, with the baseline id mapped to 0. -/
def drop_perm_events (o : FileOracle) (w : World) : List Event :=
  control_events (proc_path w.pid "setgroups") "deny\n" o.setgroups
    ++ control_events (proc_path w.pid "gid_map") (fmt_i w.uinfo.gid ++ " 0 1\n") o.gid_map
    ++ control_events (proc_path w.pid "uid_map") (fmt_i w.uinfo.uid ++ " 0 1\n") o.uid_map

/-- Only the trace differs between two worlds. -/
def World.same_state (w w' : World) : Prop :=
  w'.ruid = w.ruid ∧ w'.euid = w.euid ∧ w'.suid = w.suid ∧
  w'.rgid = w.rgid ∧ w'.egid = w.egid ∧ w'.sgid = w.sgid ∧
  w'.groups = w.groups ∧ w'.pid = w.pid ∧ w'.uinfo = w.uinfo

/-! ### Sequences of calls -/

/-- A call of one of the four operations that follow `priv_init`, with the
answers the outside gives during the call. -/
inductive Call where
  | escalate
  | drop
  | userns_init (o : FileOracle)
  | drop_perm (ns : Int) (o : FileOracle)
  deriving DecidableEq, Repr

/-- Run one call. -/
def Call.run (nosuid : Bool) : Call → World → Outcome Unit
  | .escalate, w => priv_escalate w
  | .drop, w => priv_drop nosuid w
  | .userns_init o, w => priv_userns_init o w
  | .drop_perm ns o, w => priv_drop_perm ns o w

/-- Run a sequence of calls, in order; the run ends at the first call that ends
the process. -/
def run_calls (nosuid : Bool) : List Call → World → Outcome Unit
  | [], w => .ok () w
  | c :: cs, w =>
    match c.run nosuid w with
    | .ok _ w1 => run_calls nosuid cs w1
    | .abort r s wa => .abort r s wa

/-- The states of a process after `priv_init`: those in which `priv_init`
returned, on any startup, and those in which a sequence of calls made from
there returned. -/
def Reachable (nosuid : Bool) (w : World) : Prop :=
  ∃ (str2int : String → Option Int) (env : Environ) (w0 wi : World) (calls : List Call),
    priv_init nosuid str2int env w0 = .ok () wi ∧ run_calls nosuid calls wi = .ok () w

/-- The pair `priv_escalate(); priv_drop();` run `n` times. -/
def toggle_cycles (nosuid : Bool) : Nat → World → Outcome Unit
  | 0, w => .ok () w
  | n + 1, w =>
    match priv_escalate w with
    | .abort r s wa => .abort r s wa
    | .ok _ w1 =>
      match priv_drop nosuid w1 with
      | .abort r s wa => .abort r s wa
      | .ok _ w2 => toggle_cycles nosuid n w2

/-- The relation kept between the process and the stored baseline after
`priv_init`: `ready` is 1; a baseline uid other than 0 comes with baseline ids
that are ids; and when the real uid is not 0 the baseline is the real identity,
and an effective uid of 0 comes with a saved uid of 0. -/
def baseline_inv (w : World) : Prop :=
  w.uinfo.ready = 1 ∧
  (w.uinfo.uid ≠ 0 → w.uinfo.uid ≠ ID_NONE ∧ w.uinfo.gid ≠ ID_NONE) ∧
  (w.ruid ≠ 0 →
    w.uinfo.uid = w.ruid ∧ w.uinfo.gid = w.rgid ∧ (w.euid = 0 → w.suid = 0))

/-- No user id of the process is 0, and neither is the baseline uid. -/
def rootless (w : World) : Prop :=
  w.ruid ≠ 0 ∧ w.euid ≠ 0 ∧ w.suid ≠ 0 ∧ w.uinfo.uid ≠ 0

/-- The states in which the toggle can be repeated: `ready` is 1, the real uid
is not 0, the baseline is the real identity and is made of ids, and the saved
uid is 0. -/
def toggle_ready (w : World) : Prop :=
  w.uinfo.ready = 1 ∧ w.ruid ≠ 0 ∧ w.uinfo.uid = w.ruid ∧ w.uinfo.gid = w.rgid ∧
  w.uinfo.uid ≠ ID_NONE ∧ w.uinfo.gid ≠ ID_NONE ∧ w.suid = 0

/-- The events of `priv_userns_init` when the three control files are opened:
open, write and close of setgroups, gid_map and uid_map, in that order, with 0
mapped to the baseline id. -/
def userns_events (o : FileOracle) (w : World) : List Event :=
  control_events (proc_path w.pid "setgroups") "deny\n" o.setgroups
    ++ control_events (proc_path w.pid "gid_map") ("0 " ++ fmt_i w.uinfo.gid ++ " 1\n") o.gid_map
    ++ control_events (proc_path w.pid "uid_map") ("0 " ++ fmt_i w.uinfo.uid ++ " 1\n") o.uid_map

/-- The three records as the specification words them, for pid `P`: the open,
the write and the successful close of `/proc/P/setgroups` with `deny`, of
`/proc/P/gid_map` with `gid_text` and of `/proc/P/uid_map` with `uid_text`. -/
def spec_records (P : Nat) (gid_text uid_text : String) (o : FileOracle) : List Event :=
  [ Event.fopen ("/proc/" ++ toString P ++ "/setgroups") true,
    Event.fprintf ("/proc/" ++ toString P ++ "/setgroups") "deny\n" o.setgroups.write_ok,
    Event.fclose ("/proc/" ++ toString P ++ "/setgroups") true,
    Event.fopen ("/proc/" ++ toString P ++ "/gid_map") true,
    Event.fprintf ("/proc/" ++ toString P ++ "/gid_map") gid_text o.gid_map.write_ok,
    Event.fclose ("/proc/" ++ toString P ++ "/gid_map") true,
    Event.fopen ("/proc/" ++ toString P ++ "/uid_map") true,
    Event.fprintf ("/proc/" ++ toString P ++ "/uid_map") uid_text o.uid_map.write_ok,
    Event.fclose ("/proc/" ++ toString P ++ "/uid_map") true ]

/-- The pairs (path, text) of the writes of a trace, in order. -/
def written_records : List Event → List (String × String)
  | [] => []
  | Event.fprintf path text _ :: es => (path, text) :: written_records es
  | _ :: es => written_records es

/-- The events that a call appended to the trace: those of the trace of `w'`
after the length of the trace of `w`. -/
def new_events (w w' : World) : List Event := w'.trace.drop w.trace.length

/-- The paths given to `fopen` in a trace, in order, whether or not the open
succeeded. -/
def fopen_calls : List Event → List String
  | [] => []
  | Event.fopen path _ :: es => path :: fopen_calls es
  | _ :: es => fopen_calls es

/-! ### Sample inputs -/

/-- The value of a list of decimal digits, after `acc`. -/
def digits_value : List Char → Nat → Option Nat
  | [], acc => some acc
  | c :: cs, acc =>
    if 48 ≤ c.toNat ∧ c.toNat ≤ 57 then digits_value cs (10 * acc + (c.toNat - 48))
    else none

/-- A decimal reading of a string, used as the `str2int` argument when the
model is run on sample inputs; the theorems hold for every `str2int`. -/
def decimal_str2int (s : String) : Option Int :=
  match s.data with
  | [] => none
  | '-' :: cs => if cs = [] then none else (digits_value cs 0).map (fun n => - (n : Int))
  | cs => (digits_value cs 0).map (fun n => (n : Int))

/-- A process started by root: every id is 0. -/
def root_start : World :=
  { ruid := 0, euid := 0, suid := 0, rgid := 0, egid := 0, sgid := 0,
    groups := [0], pid := 77, uinfo := PRIV_INFO.zero, trace := [] }

/-- A setuid-root binary started by user 1000 of group 100: the effective and
saved user ids are 0. -/
def user_start : World :=
  { ruid := 1000, euid := 0, suid := 0, rgid := 100, egid := 100, sgid := 100,
    groups := [4, 27], pid := 4242, uinfo := PRIV_INFO.zero, trace := [] }

/-- Both target variables set to 1000. -/
def target_env : Environ :=
  { SINGULARITY_TARGET_UID := some "1000", SINGULARITY_TARGET_GID := some "1000" }

/-- Neither target variable set. -/
def empty_env : Environ :=
  { SINGULARITY_TARGET_UID := none, SINGULARITY_TARGET_GID := none }

/-- A control file on which every operation succeeds. -/
def file_ok : FileOutcome := { open_ok := true, write_ok := true, close_ok := true }

/-- A control file that opens, but whose write and close fail. -/
def file_close_fails : FileOutcome := { open_ok := true, write_ok := false, close_ok := false }

/-- A control file that cannot be opened. -/
def file_open_fails : FileOutcome := { open_ok := false, write_ok := false, close_ok := false }

/-- The world of `root_start` after `priv_init` in target mode: real ids 0,
baseline 1000. -/
def target_world : World :=
  (priv_init true decimal_str2int target_env root_start).world

/-- The world of `user_start` after `priv_init`: real ids and baseline 1000 and
100, saved user id 0. -/
def user_world : World :=
  (priv_init false decimal_str2int empty_env user_start).world

/-- A process started by a user whose uid and gid are above `2^31`. -/
def big_id_start : World :=
  { ruid := 3000000000, euid := 3000000000, suid := 3000000000,
    rgid := 2147483648, egid := 2147483648, sgid := 2147483648,
    groups := [], pid := 9, uinfo := PRIV_INFO.zero, trace := [] }

/-- The world of `big_id_start` after `priv_init`. -/
def big_id_world : World :=
  (priv_init false decimal_str2int empty_env big_id_start).world

/-! ## Basic facts -/

theorem priv_getuid_ready {w : World} (h : w.uinfo.ready ≠ 0) :
    priv_getuid w = .ok w.uinfo.uid w := by
  simp [priv_getuid, h]

theorem priv_getgid_ready {w : World} (h : w.uinfo.ready ≠ 0) :
    priv_getgid w = .ok w.uinfo.gid w := by
  simp [priv_getgid, h]

theorem drop_perm_confirm_ok {w w' : World} (h : drop_perm_confirm w = .ok () w') :
    w' = w ∧ w.rgid = w.uinfo.gid ∧ w.ruid = w.uinfo.uid := by
  unfold drop_perm_confirm getgid getuid at h
  split_ifs at h with h1 h2
  simp only [Outcome.ok.injEq, true_and] at h
  push_neg at h1 h2
  exact ⟨h.symm, h1, h2⟩

theorem priv_drop_perm_ns {ns : Int} {o : FileOracle} {w : World} (hns : ns ≠ 0)
    (hr : w.uinfo.ready = 1) :
    priv_drop_perm ns o w =
      if w.uinfo.uid ≠ 0 then
        match drop_perm_setuid w with
        | .abort r s wa => .abort r s wa
        | .ok _ w2 => drop_perm_confirm w2
      else drop_perm_confirm w := by
  have h0 : w.uinfo.ready ≠ 0 := by omega
  simp [priv_drop_perm, hns, hr, priv_getuid_ready h0]

theorem priv_drop_perm_not_ready {ns : Int} {o : FileOracle} {w : World}
    (hr : w.uinfo.ready ≠ 1) :
    priv_drop_perm ns o w = .abort 255 .perm_not_ready w := by
  simp [priv_drop_perm, hr]

theorem write_control_opened {path text : String} {fo : FileOutcome} {w : World}
    (h : fo.open_ok = true) :
    write_control path text fo w =
      (if fo.close_ok then FileStatus.written else FileStatus.close_failed,
       { w with trace := w.trace ++ control_events path text fo }) := by
  unfold write_control control_events World.log
  simp only [h, if_true]
  split_ifs <;> simp

theorem write_control_refused {path text : String} {fo : FileOutcome} {w : World}
    (h : fo.open_ok = false) :
    write_control path text fo w =
      (FileStatus.open_failed, { w with trace := w.trace ++ [Event.fopen path false] }) := by
  simp [write_control, h, World.log]

theorem write_control_same_state (path text : String) (fo : FileOutcome) (w : World) :
    w.same_state (write_control path text fo w).2 := by
  unfold write_control World.log World.same_state
  split_ifs <;> simp

theorem drop_perm_maps_opened {o : FileOracle} {w : World} (hr : w.uinfo.ready ≠ 0)
    (h1 : o.setgroups.open_ok = true) (h2 : o.gid_map.open_ok = true)
    (h3 : o.uid_map.open_ok = true) :
    drop_perm_maps o w = .ok () { w with trace := w.trace ++ drop_perm_events o w } := by
  unfold drop_perm_maps drop_perm_events
  simp only [priv_getuid_ready hr, priv_getgid_ready hr, write_control_opened h1,
    write_control_opened h2, write_control_opened h3, getpid]
  cases o.setgroups.close_ok <;> cases o.gid_map.close_ok <;> cases o.uid_map.close_ok <;>
    simp [List.append_assoc]

theorem drop_perm_maps_refused {o : FileOracle} {w : World}
    (h : o.setgroups.open_ok = false ∨ o.gid_map.open_ok = false ∨
      o.uid_map.open_ok = false) :
    (drop_perm_maps o w).returned = false := by
  by_cases hr : w.uinfo.ready = 0
  · simp [drop_perm_maps, priv_getuid, hr, Outcome.returned]
  · cases h1 : o.setgroups.open_ok
    · simp [drop_perm_maps, priv_getuid_ready hr, priv_getgid_ready hr,
        write_control_refused h1, Outcome.returned]
    · cases h2 : o.gid_map.open_ok
      · simp only [drop_perm_maps, priv_getuid_ready hr, priv_getgid_ready hr,
          write_control_opened h1, write_control_refused h2]
        split <;> simp [Outcome.returned]
      · cases h3 : o.uid_map.open_ok
        · simp only [drop_perm_maps, priv_getuid_ready hr, priv_getgid_ready hr,
            write_control_opened h1, write_control_opened h2, write_control_refused h3]
          split
          · simp [Outcome.returned]
          · split <;> simp [Outcome.returned]
        · simp [h1, h2, h3] at h

theorem drop_perm_maps_not_ready {o : FileOracle} {w : World} (hr : w.uinfo.ready = 0) :
    (drop_perm_maps o w).returned = false := by
  simp [drop_perm_maps, priv_getuid, hr, Outcome.returned]

theorem drop_perm_maps_same_state {o : FileOracle} {w w' : World}
    (h : drop_perm_maps o w = .ok () w') : w.same_state w' := by
  by_cases hr : w.uinfo.ready = 0
  · have := drop_perm_maps_not_ready (o := o) hr
    simp [h, Outcome.returned] at this
  · by_cases ho : o.setgroups.open_ok = true ∧ o.gid_map.open_ok = true ∧
        o.uid_map.open_ok = true
    · rw [drop_perm_maps_opened hr ho.1 ho.2.1 ho.2.2] at h
      simp only [Outcome.ok.injEq, true_and] at h
      subst h
      simp [World.same_state]
    · have hf : o.setgroups.open_ok = false ∨ o.gid_map.open_ok = false ∨
          o.uid_map.open_ok = false := by
        cases h1 : o.setgroups.open_ok <;> cases h2 : o.gid_map.open_ok <;>
          cases h3 : o.uid_map.open_ok <;> simp_all
      have := drop_perm_maps_refused (w := w) hf
      simp [h, Outcome.returned] at this

/-- When the query answers 0 and `priv_drop_perm` returns, only the trace has
changed. -/
theorem priv_drop_perm_zero_same_state {o : FileOracle} {w w' : World}
    (h : priv_drop_perm 0 o w = .ok () w') : w.same_state w' := by
  by_cases hr : w.uinfo.ready = 1
  · simp only [priv_drop_perm, hr, ne_eq, not_true_eq_false, if_false, if_true] at h
    exact drop_perm_maps_same_state h
  · rw [priv_drop_perm_not_ready hr] at h
    exact absurd h (by simp)

theorem priv_drop_real_root {nosuid : Bool} {w : World} (hr : w.uinfo.ready = 1)
    (h0 : w.ruid = 0) : priv_drop nosuid w = .ok () w := by
  simp [priv_drop, hr, getuid, h0]

theorem id_of_long_range {v : Int} (h1 : 500 ≤ v) (h2 : v ≤ 65534) :
    ((id_of_long v : Nat) : Int) = v := by
  unfold id_of_long
  omega

theorem id_of_long_bounds {v : Int} (h1 : 500 ≤ v) (h2 : v ≤ 65534) :
    500 ≤ id_of_long v ∧ id_of_long v ≤ 65534 := by
  unfold id_of_long
  omega

theorem target_value_some {str2int : String → Option Int} {s : String} {v : Int}
    (hs : str2int s = some v) (a b c : Fatal) :
    target_value str2int (some s) a b c =
      if v < 500 then .error b else if v > 65534 then .error c else .ok v := by
  simp [target_value, hs]

theorem priv_init_target_both {str2int : String → Option Int} {us gs : String} {u g : Int}
    (hu : str2int us = some u) (hg : str2int gs = some g) (w : World) :
    priv_init_target str2int ⟨some us, some gs⟩ w =
      if u < 500 then .abort 255 .init_uid_below_500 w
      else if u > 65534 then .abort 255 .init_uid_above_65534 w
      else if g < 500 then .abort 255 .init_gid_below_500 w
      else if g > 65534 then .abort 255 .init_gid_above_65534 w
      else .ok (u, g) w := by
  unfold priv_init_target
  simp only [target_value_some hu, target_value_some hg]
  split_ifs <;> simp_all

/-- The world in which `priv_init` returns in target mode. -/
theorem priv_init_target_mode {str2int : String → Option Int} {us gs : String} {u g : Int}
    (hu : str2int us = some u) (hg : str2int gs = some g) (w : World) (h0 : w.ruid = 0)
    (hu1 : 500 ≤ u) (hu2 : u ≤ 65534) (hg1 : 500 ≤ g) (hg2 : g ≤ 65534) :
    priv_init true str2int ⟨some us, some gs⟩ w = .ok ()
      { w with uinfo := { PRIV_INFO.zero with
          ready := 1, target_mode := 1, uid := id_of_long u, gid := id_of_long g } } := by
  unfold priv_init
  simp only [getuid, h0, priv_init_target_both hu hg]
  have a1 : ¬ u < 500 := by omega
  have a2 : ¬ u > 65534 := by omega
  have a3 : ¬ g < 500 := by omega
  have a4 : ¬ g > 65534 := by omega
  simp only [a1, a2, a3, a4, if_false, and_self, if_true, ge_iff_le, hu1, hg1]
  rw [priv_drop_real_root (by rfl) (by rfl)]
  rfl

/-! ## The identity system calls: return value and resulting world -/

theorem seteuid_fst_neg (e : Nat) (w : World) :
    (seteuid e w).1 < 0 ↔
      ¬ (e ≠ ID_NONE ∧ (w.euid = 0 ∨ e = w.ruid ∨ e = w.euid ∨ e = w.suid)) := by
  unfold seteuid
  split_ifs with h <;> simp [h]

theorem seteuid_snd (e : Nat) (w : World) :
    (seteuid e w).2 =
      if e ≠ ID_NONE ∧ (w.euid = 0 ∨ e = w.ruid ∨ e = w.euid ∨ e = w.suid) then
        { w with euid := e, trace := w.trace ++ [Event.seteuid e 0] }
      else { w with trace := w.trace ++ [Event.seteuid e (-1)] } := by
  unfold seteuid World.log
  split_ifs <;> rfl

theorem setegid_fst_neg (g : Nat) (w : World) :
    (setegid g w).1 < 0 ↔
      ¬ (g ≠ ID_NONE ∧ (w.euid = 0 ∨ g = w.rgid ∨ g = w.egid ∨ g = w.sgid)) := by
  unfold setegid
  split_ifs with h <;> simp [h]

theorem setegid_snd (g : Nat) (w : World) :
    (setegid g w).2 =
      if g ≠ ID_NONE ∧ (w.euid = 0 ∨ g = w.rgid ∨ g = w.egid ∨ g = w.sgid) then
        { w with egid := g, trace := w.trace ++ [Event.setegid g 0] }
      else { w with trace := w.trace ++ [Event.setegid g (-1)] } := by
  unfold setegid World.log
  split_ifs <;> rfl

/-! ## The reversible toggle -/

/-- What `priv_drop` did when it returned for a process whose real uid is not
0: `ready` was 1 and both effective ids were set to the baseline. -/
theorem priv_drop_returned {nosuid : Bool} {w w' : World}
    (h : priv_drop nosuid w = .ok () w') (h0 : w.ruid ≠ 0) :
    w.uinfo.ready = 1 ∧
    (w.uinfo.gid ≠ ID_NONE ∧
      (w.euid = 0 ∨ w.uinfo.gid = w.rgid ∨ w.uinfo.gid = w.egid ∨ w.uinfo.gid = w.sgid)) ∧
    (w.uinfo.uid ≠ ID_NONE ∧
      (w.euid = 0 ∨ w.uinfo.uid = w.ruid ∨ w.uinfo.uid = w.euid ∨ w.uinfo.uid = w.suid)) ∧
    w' = { w with egid := w.uinfo.gid, euid := w.uinfo.uid,
                  trace := w.trace ++ [Event.setegid w.uinfo.gid 0,
                                       Event.seteuid w.uinfo.uid 0] } := by
  unfold priv_drop at h
  simp only [seteuid_fst_neg, seteuid_snd, setegid_fst_neg, setegid_snd, getuid] at h
  split_ifs at h with hr hg hu
  dsimp only at hu h
  split at h
  · exact absurd h (by simp)
  · split at h
    · exact absurd h (by simp)
    · simp only [Outcome.ok.injEq, true_and] at h
      refine ⟨by simpa using hr, hg, hu, ?_⟩
      rw [← h]
      simp

/-- The function `priv_drop` returns without any effect when the real uid is 0. -/
theorem priv_drop_root {nosuid : Bool} {w : World} (hr : w.uinfo.ready = 1)
    (h0 : w.ruid = 0) : priv_drop nosuid w = .ok () w :=
  priv_drop_real_root hr h0

/-- What `priv_init` did when it returned for a process whose real uid is not
0: the baseline is the real identity, no target mode, and the effective ids were
set to the baseline. -/
theorem priv_init_returned_nonroot {nosuid : Bool} {str2int : String → Option Int}
    {env : Environ} {w0 w : World} (h0 : w0.ruid ≠ 0)
    (h : priv_init nosuid str2int env w0 = .ok () w) :
    w.uinfo.ready = 1 ∧ w.uinfo.uid = w0.ruid ∧ w.uinfo.gid = w0.rgid ∧
    w.uinfo.target_mode = 0 ∧ w.uinfo.userns_ready = 0 ∧ w.uinfo.disable_setgroups = 0 ∧
    w.ruid = w0.ruid ∧ w.rgid = w0.rgid ∧ w.suid = w0.suid ∧ w.sgid = w0.sgid ∧
    w.euid = w0.ruid ∧ w.egid = w0.rgid ∧
    w0.ruid ≠ ID_NONE ∧ w0.rgid ≠ ID_NONE := by
  unfold priv_init at h
  simp only [getuid, h0, and_false, if_false] at h
  simp only [ge_iff_le, show ¬ ((500 : Int) ≤ -1) by decide, and_self, if_false] at h
  split_ifs at h with hg
  have hd := priv_drop_returned h (by exact h0)
  obtain ⟨_, hgid, huid, rfl⟩ := hd
  dsimp only at hgid huid
  simp [PRIV_INFO.zero, getgid, getuid]
  exact ⟨huid.1, hgid.1⟩

/-! ## The irreversible system calls -/

theorem setgroups_frame (n : Nat) (l : List Nat) (w : World) :
    (setgroups n l w).2.uinfo = w.uinfo ∧
    (setgroups n l w).2.ruid = w.ruid ∧ (setgroups n l w).2.euid = w.euid ∧
    (setgroups n l w).2.suid = w.suid ∧ (setgroups n l w).2.rgid = w.rgid ∧
    (setgroups n l w).2.egid = w.egid ∧ (setgroups n l w).2.sgid = w.sgid ∧
    (setgroups n l w).2.pid = w.pid := by
  unfold setgroups World.log
  split_ifs <;> simp

theorem setgid_returned {g : Nat} {w : World} (h : ¬ (setgid g w).1 < 0) :
    g ≠ ID_NONE ∧ (w.euid = 0 ∨ g = w.rgid ∨ g = w.sgid) ∧
    (setgid g w).2.uinfo = w.uinfo ∧ (setgid g w).2.pid = w.pid ∧
    (setgid g w).2.ruid = w.ruid ∧ (setgid g w).2.euid = w.euid ∧
    (setgid g w).2.suid = w.suid ∧ (setgid g w).2.egid = g ∧
    (w.euid = 0 → (setgid g w).2.rgid = g ∧ (setgid g w).2.sgid = g) ∧
    (w.euid ≠ 0 → (setgid g w).2.rgid = w.rgid ∧ (setgid g w).2.sgid = w.sgid) := by
  unfold setgid World.log at h ⊢
  split_ifs at h ⊢ with h1 h2 h3 <;> simp_all

theorem setregid_returned {g : Nat} {w : World} (h : ¬ (setregid g g w).1 < 0)
    (hg : g ≠ ID_NONE) :
    (w.euid = 0 ∨ g = w.rgid ∨ g = w.egid) ∧
    (setregid g g w).2.uinfo = w.uinfo ∧ (setregid g g w).2.pid = w.pid ∧
    (setregid g g w).2.ruid = w.ruid ∧ (setregid g g w).2.euid = w.euid ∧
    (setregid g g w).2.suid = w.suid ∧ (setregid g g w).2.rgid = g ∧
    (setregid g g w).2.egid = g ∧ (setregid g g w).2.sgid = g := by
  unfold setregid World.log at h ⊢
  split_ifs at h ⊢ with h1 <;> simp_all

theorem setreuid_returned {u : Nat} {w : World} (h : ¬ (setreuid u u w).1 < 0) :
    (setreuid u u w).2.uinfo = w.uinfo ∧ (setreuid u u w).2.pid = w.pid ∧
    (setreuid u u w).2.rgid = w.rgid ∧ (setreuid u u w).2.egid = w.egid ∧
    (setreuid u u w).2.sgid = w.sgid ∧
    (u ≠ ID_NONE → (w.euid = 0 ∨ u = w.ruid ∨ u = w.euid) ∧
      (setreuid u u w).2.ruid = u ∧ (setreuid u u w).2.euid = u ∧
      (setreuid u u w).2.suid = u) ∧
    (u = ID_NONE → (setreuid u u w).2.ruid = w.ruid ∧ (setreuid u u w).2.euid = w.euid ∧
      (setreuid u u w).2.suid = w.suid) := by
  unfold setreuid World.log at h ⊢
  split_ifs at h ⊢ with h1 <;> simp_all

/-- The world before `setgid` in the setuid-style drop: the reset of the
supplementary groups, attempted unless `userns_ready`. -/
theorem drop_perm_groups_frame (w : World) :
    let w1 := if w.uinfo.userns_ready = 0
              then (setgroups w.uinfo.gids_count w.uinfo.gids w).2 else w
    w1.uinfo = w.uinfo ∧ w1.ruid = w.ruid ∧ w1.euid = w.euid ∧ w1.suid = w.suid ∧
    w1.rgid = w.rgid ∧ w1.egid = w.egid ∧ w1.sgid = w.sgid ∧ w1.pid = w.pid := by
  intro w1
  by_cases h : w.uinfo.userns_ready = 0
  · have : w1 = (setgroups w.uinfo.gids_count w.uinfo.gids w).2 := by
      simp only [w1, h, if_true]
    rw [this]
    exact setgroups_frame _ _ _
  · have : w1 = w := by simp only [w1, h, if_false]
    rw [this]
    simp

/-- What the setuid-style drop did when it returned: the three group ids are
the baseline gid, and the three user ids are the baseline uid unless the
baseline uid is `(uid_t) -1`, which `setreuid` reads as "no change". -/
theorem drop_perm_setuid_returned {w w' : World} (h : drop_perm_setuid w = .ok () w') :
    w.uinfo.gid ≠ ID_NONE ∧ w'.uinfo = w.uinfo ∧ w'.pid = w.pid ∧
    w'.rgid = w.uinfo.gid ∧ w'.egid = w.uinfo.gid ∧ w'.sgid = w.uinfo.gid ∧
    (w.uinfo.uid ≠ ID_NONE →
      w'.ruid = w.uinfo.uid ∧ w'.euid = w.uinfo.uid ∧ w'.suid = w.uinfo.uid) ∧
    (w.uinfo.uid = ID_NONE →
      w'.ruid = w.ruid ∧ w'.euid = w.euid ∧ w'.suid = w.suid) := by
  unfold drop_perm_setuid at h
  have f1 := drop_perm_groups_frame w
  simp only at h f1
  generalize (if w.uinfo.userns_ready = 0
    then (setgroups w.uinfo.gids_count w.uinfo.gids w).2 else w) = w1 at h f1
  obtain ⟨u1, a1, b1, c1, d1, e1, g1, p1⟩ := f1
  split_ifs at h with h2 h3 h4
  simp only [Outcome.ok.injEq, true_and] at h
  obtain ⟨n2, _, u2, p2, a2, b2, c2, e2, _, _⟩ := setgid_returned h2
  generalize (setgid w1.uinfo.gid w1).2 = w2 at *
  rw [u1] at n2
  have n3 : w2.uinfo.gid ≠ ID_NONE := by rw [u2, u1]; exact n2
  obtain ⟨_, u3, p3, a3, b3, c3, d3, e3, g3⟩ := setregid_returned h3 n3
  generalize (setregid w2.uinfo.gid w2.uinfo.gid w2).2 = w3 at *
  obtain ⟨u4, p4, d4, e4, g4, hs, hn⟩ := setreuid_returned h4
  generalize (setreuid w3.uinfo.uid w3.uinfo.uid w3).2 = w4 at *
  subst h
  have hu : w3.uinfo.uid = w.uinfo.uid := by rw [u3, u2, u1]
  have hg : w2.uinfo.gid = w.uinfo.gid := by rw [u2, u1]
  refine ⟨n2, by rw [u4, u3, u2, u1], by rw [p4, p3, p2, p1], by rw [d4, d3, hg],
    by rw [e4, e3, hg], by rw [g4, g3, hg], ?_, ?_⟩
  · intro hne
    obtain ⟨_, x, y, z⟩ := hs (by rw [hu]; exact hne)
    rw [x, y, z, hu]
    exact ⟨rfl, rfl, rfl⟩
  · intro he
    obtain ⟨x, y, z⟩ := hn (by rw [hu]; exact he)
    rw [x, y, z, a3, b3, c3, a2, b2, c2, a1, b1, c1]
    exact ⟨rfl, rfl, rfl⟩

theorem setgid_root {g : Nat} {w : World} (he : w.euid = 0) (hg : g ≠ ID_NONE) :
    ¬ (setgid g w).1 < 0 ∧ (setgid g w).2.euid = 0 := by
  unfold setgid
  simp [he, hg]

theorem setregid_root {r e : Nat} {w : World} (he : w.euid = 0) :
    ¬ (setregid r e w).1 < 0 ∧ (setregid r e w).2.euid = 0 := by
  unfold setregid
  simp [he]

theorem setreuid_root {r e : Nat} {w : World} (he : w.euid = 0) :
    ¬ (setreuid r e w).1 < 0 := by
  unfold setreuid
  simp [he]

/-- The setuid-style drop returns for a privileged process whose baseline gid
is an id. -/
theorem drop_perm_setuid_root {w : World} (he : w.euid = 0)
    (hg : w.uinfo.gid ≠ ID_NONE) : (drop_perm_setuid w).returned = true := by
  unfold drop_perm_setuid
  have f1 := drop_perm_groups_frame w
  simp only at f1 ⊢
  generalize (if w.uinfo.userns_ready = 0
    then (setgroups w.uinfo.gids_count w.uinfo.gids w).2 else w) = w1 at f1 ⊢
  obtain ⟨u1, _, b1, _⟩ := f1
  have s2 := setgid_root (g := w1.uinfo.gid) (w := w1) (by rw [b1, he]) (by rw [u1]; exact hg)
  rw [if_neg s2.1]
  have s3 := setregid_root (r := (setgid w1.uinfo.gid w1).2.uinfo.gid)
    (e := (setgid w1.uinfo.gid w1).2.uinfo.gid) (w := (setgid w1.uinfo.gid w1).2) s2.2
  rw [if_neg s3.1]
  have s4 := setreuid_root
    (r := (setregid (setgid w1.uinfo.gid w1).2.uinfo.gid
      (setgid w1.uinfo.gid w1).2.uinfo.gid (setgid w1.uinfo.gid w1).2).2.uinfo.uid)
    (e := (setregid (setgid w1.uinfo.gid w1).2.uinfo.gid
      (setgid w1.uinfo.gid w1).2.uinfo.gid (setgid w1.uinfo.gid w1).2).2.uinfo.uid)
    (w := (setregid (setgid w1.uinfo.gid w1).2.uinfo.gid
      (setgid w1.uinfo.gid w1).2.uinfo.gid (setgid w1.uinfo.gid w1).2).2) s3.2
  rw [if_neg s4]
  rfl

/-- What `priv_drop_perm` did when it returned through the setuid-style drop
from a process whose real uid was an id: the three user ids are the baseline
uid and the three group ids are the baseline gid. -/
theorem priv_drop_perm_setuid_returned {ns : Int} {o : FileOracle} {w w' : World}
    (hns : ns ≠ 0) (hU : w.uinfo.uid ≠ 0) (hreal : w.ruid ≠ ID_NONE)
    (h : priv_drop_perm ns o w = .ok () w') :
    w.uinfo.ready = 1 ∧ w.uinfo.uid ≠ ID_NONE ∧ w.uinfo.gid ≠ ID_NONE ∧
    w'.uinfo = w.uinfo ∧ w'.pid = w.pid ∧
    w'.ruid = w.uinfo.uid ∧ w'.euid = w.uinfo.uid ∧ w'.suid = w.uinfo.uid ∧
    w'.rgid = w.uinfo.gid ∧ w'.egid = w.uinfo.gid ∧ w'.sgid = w.uinfo.gid := by
  by_cases hr : w.uinfo.ready = 1
  · rw [priv_drop_perm_ns hns hr, if_pos hU] at h
    split at h
    · exact absurd h (by simp)
    · rename_i w2 hs
      obtain ⟨rfl, _, hcu⟩ := drop_perm_confirm_ok h
      obtain ⟨hg, hui, hp, a, b, c, hs1, hs2⟩ := drop_perm_setuid_returned hs
      have hne : w.uinfo.uid ≠ ID_NONE := by
        intro he
        obtain ⟨x, _, _⟩ := hs2 he
        rw [x, hui, he] at hcu
        exact hreal hcu
      obtain ⟨x, y, z⟩ := hs1 hne
      exact ⟨hr, hne, hg, hui, hp, x, y, z, a, b, c⟩
  · rw [priv_drop_perm_not_ready hr] at h
    exact absurd h (by simp)

/-- What `priv_escalate` did when it returned. -/
theorem priv_escalate_returned {w w' : World} (h : priv_escalate w = .ok () w') :
    (w.ruid = 0 ∧ w' = w) ∨
    (w.ruid ≠ 0 ∧ (w.euid = 0 ∨ w.suid = 0) ∧
      w' = { w with euid := 0, egid := 0,
                    trace := w.trace ++ [Event.seteuid 0 0, Event.setegid 0 0] }) := by
  unfold priv_escalate at h
  simp only [seteuid_fst_neg, seteuid_snd, setegid_fst_neg, setegid_snd, getuid] at h
  split_ifs at h with h0 h1 h2
  · right
    simp only [Outcome.ok.injEq, true_and] at h
    refine ⟨h0, ?_, ?_⟩
    · rcases h1.2 with a | a | a | a
      · exact Or.inl a
      · exact absurd a.symm h0
      · exact Or.inl a.symm
      · exact Or.inr a.symm
    · rw [← h]
      simp
  · left
    simp only [Outcome.ok.injEq, true_and] at h
    exact ⟨by simpa using h0, h.symm⟩

/-- With no user id equal to 0, `priv_escalate` ends the process and leaves the
credentials and `uinfo` as they were. -/
theorem priv_escalate_denied {w : World} (h1 : w.ruid ≠ 0) (h2 : w.euid ≠ 0)
    (h3 : w.suid ≠ 0) :
    (priv_escalate w).returned = false ∧ w.same_state (priv_escalate w).world := by
  have a1 : ¬ (0 = w.ruid) := fun h => h1 h.symm
  have a2 : ¬ (0 = w.euid) := fun h => h2 h.symm
  have a3 : ¬ (0 = w.suid) := fun h => h3 h.symm
  unfold priv_escalate World.same_state
  simp [seteuid_fst_neg, seteuid_snd, getuid, h1, h2, a1, a2, a3, Outcome.returned,
    Outcome.world]

/-- Whatever `priv_drop` does, it changes neither the real nor the saved user
id nor `uinfo`, and it leaves an effective uid that is the old one or the
baseline uid. -/
theorem priv_drop_uids (nosuid : Bool) (w : World) :
    (priv_drop nosuid w).world.ruid = w.ruid ∧ (priv_drop nosuid w).world.suid = w.suid ∧
    (priv_drop nosuid w).world.uinfo = w.uinfo ∧
    ((priv_drop nosuid w).world.euid = w.euid ∨
     (priv_drop nosuid w).world.euid = w.uinfo.uid) := by
  unfold priv_drop
  simp only [seteuid_fst_neg, seteuid_snd, setegid_fst_neg, setegid_snd, getuid]
  split_ifs with hr h0 hg hu
  · simp [Outcome.world]
  · dsimp only
    split
    · simp [Outcome.world]
    · split <;> simp [Outcome.world]
  · simp [Outcome.world]
  · simp [Outcome.world]
  · simp [Outcome.world]

theorem rootless_toggle (nosuid : Bool) {c : Call} {w : World} (hw : rootless w)
    (hc : c = .escalate ∨ c = .drop) : rootless (c.run nosuid w).world := by
  obtain ⟨h1, h2, h3, h4⟩ := hw
  rcases hc with rfl | rfl
  · obtain ⟨a, b, c, _, _, _, _, _, d⟩ := (priv_escalate_denied h1 h2 h3).2
    exact ⟨by rw [Call.run, a]; exact h1, by rw [Call.run, b]; exact h2,
      by rw [Call.run, c]; exact h3, by rw [Call.run, d]; exact h4⟩
  · obtain ⟨a, b, c, d⟩ := priv_drop_uids nosuid w
    refine ⟨by rw [Call.run, a]; exact h1, ?_, by rw [Call.run, b]; exact h3,
      by rw [Call.run, c]; exact h4⟩
    rcases d with d | d
    · rw [Call.run, d]; exact h2
    · rw [Call.run, d]; exact h4

theorem rootless_run_calls (nosuid : Bool) (ops : List Call) :
    ∀ w, rootless w → (∀ c ∈ ops, c = .escalate ∨ c = .drop) →
      rootless (run_calls nosuid ops w).world ∧
      (Call.escalate ∈ ops → (run_calls nosuid ops w).returned = false) := by
  induction ops with
  | nil =>
    intro w hw _
    exact ⟨hw, fun h => absurd h (by simp)⟩
  | cons c cs ih =>
    intro w hw hops
    have hc := hops c (by simp)
    have hcs : ∀ d ∈ cs, d = .escalate ∨ d = .drop := fun d hd => hops d (by simp [hd])
    have hstep := rootless_toggle nosuid hw hc
    unfold run_calls
    cases hrun : c.run nosuid w with
    | abort r s wa =>
      rw [hrun] at hstep
      exact ⟨hstep, fun _ => rfl⟩
    | ok v w1 =>
      rw [hrun] at hstep
      obtain ⟨i1, i2⟩ := ih w1 hstep hcs
      refine ⟨i1, fun hmem => ?_⟩
      rcases List.mem_cons.mp hmem with he | he
      · subst he
        have := (priv_escalate_denied hw.1 hw.2.1 hw.2.2.1).1
        rw [Call.run] at hrun
        rw [hrun] at this
        exact absurd this (by simp [Outcome.returned])
      · exact i2 he

/-! ## The state after `priv_init` -/

/-- The block that reads the target variables changes nothing in the world. -/
theorem priv_init_target_world (str2int : String → Option Int) (env : Environ) (w : World) :
    (priv_init_target str2int env w).world = w := by
  unfold priv_init_target
  simp only
  repeat' (first | rfl | split)

/-- Every return of `priv_init` is a return of its last statement, the call of
`priv_drop`, made with `ready` set and the real uid of the startup. -/
theorem priv_init_ends_in_drop {nosuid : Bool} {str2int : String → Option Int}
    {env : Environ} {w0 w : World} (h : priv_init nosuid str2int env w0 = .ok () w) :
    ∃ x : World, priv_drop nosuid x = .ok () w ∧ x.uinfo.ready = 1 ∧ x.ruid = w0.ruid := by
  unfold priv_init at h
  simp only at h
  split at h
  · exact absurd h (by simp)
  · rename_i tu tg w1 hm
    have hw1 : w1.ruid = w0.ruid := by
      split_ifs at hm with hc
      · have hw := priv_init_target_world str2int env { w0 with uinfo := PRIV_INFO.zero }
        rw [hm] at hw
        simp only [Outcome.world] at hw
        rw [hw]
      · simp only [Outcome.ok.injEq] at hm
        rw [← hm.2]
    split_ifs at h with hc hg
    · exact ⟨_, h, rfl, hw1⟩
    · exact ⟨_, h, rfl, hw1⟩

/-- What the block that reads the target variables returns: the world it was
given, and either `-1` twice (no variable set) or two values in
`[500, 65534]`. -/
theorem priv_init_target_returned {str2int : String → Option Int} {env : Environ}
    {w w1 : World} {tu tg : Int}
    (h : priv_init_target str2int env w = .ok (tu, tg) w1) :
    w1 = w ∧ ((tu = -1 ∧ tg = -1) ∨
      (500 ≤ tu ∧ tu ≤ 65534 ∧ 500 ≤ tg ∧ tg ≤ 65534)) := by
  have hw := priv_init_target_world str2int env w
  rw [h] at hw
  refine ⟨hw, ?_⟩
  unfold priv_init_target target_value at h
  rcases env with ⟨_ | us, _ | gs⟩
  · simp at h
    omega
  · simp at h
  · exact absurd h (by simp)
  · cases hu : str2int us with
    | none => simp [hu] at h
    | some u =>
      cases hg : str2int gs with
      | none =>
        simp only [hu, hg] at h
        split_ifs at h
      | some g =>
        simp only [hu, hg] at h
        split_ifs at h
        simp at h
        right
        omega

theorem priv_drop_root_returned {nosuid : Bool} {x w : World}
    (h : priv_drop nosuid x = .ok () w) (hr : x.uinfo.ready = 1) (h0 : x.ruid = 0) :
    w = x := by
  rw [priv_drop_root hr h0] at h
  simp only [Outcome.ok.injEq, true_and] at h
  exact h.symm

/-- What `priv_init` did when it returned for a process whose real uid is 0:
the credentials are those of the startup, and the baseline is either the real
identity, or a target identity in `[500, 65534]` with no supplementary group. -/
theorem priv_init_returned_root {nosuid : Bool} {str2int : String → Option Int}
    {env : Environ} {w0 w : World} (h0 : w0.ruid = 0)
    (h : priv_init nosuid str2int env w0 = .ok () w) :
    w.uinfo.ready = 1 ∧ w.ruid = 0 ∧ w.euid = w0.euid ∧ w.suid = w0.suid ∧
    w.rgid = w0.rgid ∧ w.egid = w0.egid ∧ w.sgid = w0.sgid ∧
    w.uinfo.userns_ready = 0 ∧ w.uinfo.disable_setgroups = 0 ∧
    ((w.uinfo.target_mode = 0 ∧ w.uinfo.uid = 0 ∧ w.uinfo.gid = w0.rgid) ∨
     (nosuid = true ∧ w.uinfo.target_mode = 1 ∧
      500 ≤ w.uinfo.uid ∧ w.uinfo.uid ≤ 65534 ∧
      500 ≤ w.uinfo.gid ∧ w.uinfo.gid ≤ 65534 ∧
      w.uinfo.gids = [] ∧ w.uinfo.gids_count = 0)) := by
  unfold priv_init at h
  simp only at h
  split at h
  · exact absurd h (by simp)
  · rename_i tu tg w1 hm
    have hm2 : w1 = { w0 with uinfo := PRIV_INFO.zero } ∧
        ((tu = -1 ∧ tg = -1) ∨
          (nosuid = true ∧ 500 ≤ tu ∧ tu ≤ 65534 ∧ 500 ≤ tg ∧ tg ≤ 65534)) := by
      split_ifs at hm with hc
      · obtain ⟨a, b⟩ := priv_init_target_returned hm
        refine ⟨a, ?_⟩
        rcases b with b | b
        · exact Or.inl b
        · exact Or.inr ⟨hc.1, b⟩
      · simp only [Outcome.ok.injEq, Prod.mk.injEq] at hm
        exact ⟨hm.2.symm, Or.inl ⟨hm.1.1.symm, hm.1.2.symm⟩⟩
    obtain ⟨rfl, hrange⟩ := hm2
    split_ifs at h with hc hg
    · have e := priv_drop_root_returned h rfl h0
      subst e
      rcases hrange with ⟨a, b⟩ | ⟨hn, a1, a2, b1, b2⟩
      · omega
      · exact ⟨rfl, h0, rfl, rfl, rfl, rfl, rfl, rfl, rfl, Or.inr ⟨hn, rfl,
          (id_of_long_bounds a1 a2).1, (id_of_long_bounds a1 a2).2,
          (id_of_long_bounds b1 b2).1, (id_of_long_bounds b1 b2).2, rfl, rfl⟩⟩
    · have e := priv_drop_root_returned h rfl h0
      subst e
      rcases hrange with ⟨a, b⟩ | ⟨hn, a1, a2, b1, b2⟩
      · exact ⟨rfl, h0, rfl, rfl, rfl, rfl, rfl, rfl, rfl, Or.inl ⟨rfl, h0, rfl⟩⟩
      · exact absurd ⟨a1, b1⟩ hc

theorem priv_init_baseline_inv {nosuid : Bool} {str2int : String → Option Int}
    {env : Environ} {w0 w : World} (h : priv_init nosuid str2int env w0 = .ok () w) :
    baseline_inv w := by
  by_cases h0 : w0.ruid = 0
  · obtain ⟨hr, hru, _, _, _, _, _, _, _, hb⟩ := priv_init_returned_root h0 h
    refine ⟨hr, fun hne => ?_, fun hne => absurd hru hne⟩
    rcases hb with ⟨_, a, _⟩ | ⟨_, _, a1, a2, b1, b2, _⟩
    · exact absurd a hne
    · unfold ID_NONE
      omega
  · obtain ⟨hr, hu, hg, _, _, _, hru, hrg, _, _, heu, _, n1, n2⟩ :=
      priv_init_returned_nonroot h0 h
    refine ⟨hr, fun _ => ⟨by rw [hu]; exact n1, by rw [hg]; exact n2⟩,
      fun _ => ⟨by rw [hu, hru], by rw [hg, hrg], fun he => ?_⟩⟩
    rw [heu] at he
    exact absurd he h0

theorem World.same_state_refl (w : World) : w.same_state w := by
  simp [World.same_state]

theorem World.same_state_trans {a b c : World} (h1 : a.same_state b)
    (h2 : b.same_state c) : a.same_state c := by
  unfold World.same_state at *
  obtain ⟨a1, a2, a3, a4, a5, a6, a7, a8, a9⟩ := h1
  obtain ⟨b1, b2, b3, b4, b5, b6, b7, b8, b9⟩ := h2
  exact ⟨b1.trans a1, b2.trans a2, b3.trans a3, b4.trans a4, b5.trans a5, b6.trans a6,
    b7.trans a7, b8.trans a8, b9.trans a9⟩

theorem baseline_inv_same_state {w w' : World} (hs : w.same_state w')
    (h : baseline_inv w) : baseline_inv w' := by
  obtain ⟨a1, a2, a3, a4, _, _, _, _, a9⟩ := hs
  unfold baseline_inv at *
  rw [a1, a2, a3, a4, a9]
  exact h

/-- Whatever `priv_userns_init` does, it changes only the trace. -/
theorem priv_userns_init_same_state (o : FileOracle) (w : World) :
    w.same_state (priv_userns_init o w).world := by
  by_cases hr : w.uinfo.ready = 0
  · simp only [priv_userns_init, priv_getuid, hr, if_true, Outcome.world]
    exact World.same_state_refl w
  · simp only [priv_userns_init, priv_getuid_ready hr, priv_getgid_ready hr]
    have s1 := write_control_same_state (proc_path (getpid w) "setgroups") "deny\n"
      o.setgroups w
    generalize write_control (proc_path (getpid w) "setgroups") "deny\n" o.setgroups w
      = f1 at s1 ⊢
    have s2 := write_control_same_state (proc_path (getpid f1.2) "gid_map")
      ("0 " ++ fmt_i w.uinfo.gid ++ " 1\n") o.gid_map f1.2
    generalize write_control (proc_path (getpid f1.2) "gid_map")
      ("0 " ++ fmt_i w.uinfo.gid ++ " 1\n") o.gid_map f1.2 = f2 at s2 ⊢
    have s3 := write_control_same_state (proc_path (getpid f2.2) "uid_map")
      ("0 " ++ fmt_i w.uinfo.uid ++ " 1\n") o.uid_map f2.2
    generalize write_control (proc_path (getpid f2.2) "uid_map")
      ("0 " ++ fmt_i w.uinfo.uid ++ " 1\n") o.uid_map f2.2 = f3 at s3 ⊢
    have s12 := World.same_state_trans s1 s2
    have s123 := World.same_state_trans s12 s3
    split
    · exact s1
    · exact s1
    · split
      · exact s12
      · exact s12
      · split <;> exact s123

theorem baseline_inv_call {nosuid : Bool} {c : Call} {w w' : World}
    (hw : baseline_inv w) (h : c.run nosuid w = .ok () w') : baseline_inv w' := by
  cases c with
  | escalate =>
    rcases priv_escalate_returned h with ⟨_, rfl⟩ | ⟨h0, hes, rfl⟩
    · exact hw
    · obtain ⟨hr, hv, hi⟩ := hw
      obtain ⟨a, b, e⟩ := hi h0
      refine ⟨hr, hv, fun _ => ⟨a, b, fun _ => ?_⟩⟩
      rcases hes with x | x
      · exact e x
      · exact x
  | drop =>
    by_cases h0 : w.ruid = 0
    · rw [Call.run, priv_drop_root hw.1 h0] at h
      simp only [Outcome.ok.injEq, true_and] at h
      rw [← h]
      exact hw
    · obtain ⟨_, _, _, rfl⟩ := priv_drop_returned h h0
      obtain ⟨hr, hv, hi⟩ := hw
      obtain ⟨a, b, _⟩ := hi h0
      refine ⟨hr, hv, fun _ => ⟨a, b, fun he => ?_⟩⟩
      simp only at he
      rw [a] at he
      exact absurd he h0
  | userns_init o =>
    have hs := priv_userns_init_same_state o w
    rw [Call.run] at h
    rw [h] at hs
    exact baseline_inv_same_state hs hw
  | drop_perm ns o =>
    rw [Call.run] at h
    by_cases hns : ns = 0
    · subst hns
      exact baseline_inv_same_state (priv_drop_perm_zero_same_state h) hw
    · by_cases hU : w.uinfo.uid = 0
      · rw [priv_drop_perm_ns hns hw.1, if_neg (by simpa using hU)] at h
        obtain ⟨rfl, _, _⟩ := drop_perm_confirm_ok h
        exact hw
      · have hreal : w.ruid ≠ ID_NONE := by
          by_cases h0 : w.ruid = 0
          · rw [h0]; decide
          · rw [← (hw.2.2 h0).1]; exact (hw.2.1 hU).1
        obtain ⟨hr, n1, n2, hui, _, a, b, _, d, _, _⟩ :=
          priv_drop_perm_setuid_returned hns hU hreal h
        refine ⟨by rw [hui]; exact hr, fun _ => ⟨by rw [hui]; exact n1, by rw [hui]; exact n2⟩,
          fun _ => ⟨by rw [hui, a], by rw [hui, d], fun he => ?_⟩⟩
        rw [b] at he
        exact absurd he hU

theorem baseline_inv_run_calls {nosuid : Bool} (calls : List Call) :
    ∀ w w', baseline_inv w → run_calls nosuid calls w = .ok () w' → baseline_inv w' := by
  induction calls with
  | nil =>
    intro w w' hw h
    simp only [run_calls, Outcome.ok.injEq, true_and] at h
    rw [← h]
    exact hw
  | cons c cs ih =>
    intro w w' hw h
    unfold run_calls at h
    cases hrun : c.run nosuid w with
    | abort r s wa =>
      rw [hrun] at h
      exact absurd h (by simp)
    | ok v w1 =>
      rw [hrun] at h
      exact ih w1 w' (baseline_inv_call hw hrun) h

/-- Every state after `priv_init` keeps the relation `baseline_inv`. -/
theorem reachable_baseline_inv {nosuid : Bool} {w : World} (h : Reachable nosuid w) :
    baseline_inv w := by
  obtain ⟨str2int, env, w0, wi, calls, hi, hc⟩ := h
  exact baseline_inv_run_calls calls wi w (priv_init_baseline_inv hi) hc

/-- In a state that keeps `baseline_inv`, the real uid is an id. -/
theorem baseline_inv_real_id {w : World} (hw : baseline_inv w) : w.ruid ≠ ID_NONE := by
  by_cases h0 : w.ruid = 0
  · rw [h0]; decide
  · obtain ⟨a, _, _⟩ := hw.2.2 h0
    have hne : w.uinfo.uid ≠ 0 := by rw [a]; exact h0
    rw [← a]
    exact (hw.2.1 hne).1

/-- The function `priv_escalate` for a process whose real uid is not 0 and whose
effective or saved uid is 0. -/
theorem priv_escalate_permitted {w : World} (h0 : w.ruid ≠ 0)
    (hp : w.euid = 0 ∨ w.suid = 0) :
    priv_escalate w = .ok ()
      { w with euid := 0, egid := 0,
               trace := w.trace ++ [Event.seteuid 0 0, Event.setegid 0 0] } := by
  unfold priv_escalate
  simp only [seteuid_fst_neg, seteuid_snd, setegid_fst_neg, setegid_snd, getuid]
  have c1 : (0 : Nat) ≠ ID_NONE ∧ (w.euid = 0 ∨ 0 = w.ruid ∨ 0 = w.euid ∨ 0 = w.suid) := by
    refine ⟨by decide, ?_⟩
    rcases hp with a | a
    · exact Or.inl a
    · exact Or.inr (Or.inr (Or.inr a.symm))
  simp [h0, c1]

/-- The function `priv_drop` for a privileged process whose real uid is not 0
and whose baseline is its real identity. -/
theorem priv_drop_permitted (nosuid : Bool) {w : World} (hr : w.uinfo.ready = 1)
    (h0 : w.ruid ≠ 0) (he : w.euid = 0) (hu : w.uinfo.uid = w.ruid)
    (hg : w.uinfo.gid = w.rgid) (nu : w.uinfo.uid ≠ ID_NONE) (ng : w.uinfo.gid ≠ ID_NONE) :
    priv_drop nosuid w = .ok ()
      { w with egid := w.uinfo.gid, euid := w.uinfo.uid,
               trace := w.trace ++ [Event.setegid w.uinfo.gid 0,
                                    Event.seteuid w.uinfo.uid 0] } := by
  unfold priv_drop
  simp only [seteuid_fst_neg, seteuid_snd, setegid_fst_neg, setegid_snd, getuid]
  have cg : w.uinfo.gid ≠ ID_NONE ∧
      (w.euid = 0 ∨ w.uinfo.gid = w.rgid ∨ w.uinfo.gid = w.egid ∨ w.uinfo.gid = w.sgid) :=
    ⟨ng, Or.inl he⟩
  have cu : w.uinfo.uid ≠ ID_NONE ∧
      (w.euid = 0 ∨ w.uinfo.uid = w.ruid ∨ w.uinfo.uid = w.euid ∨ w.uinfo.uid = w.suid) :=
    ⟨nu, Or.inl he⟩
  rw [if_neg (by rw [hr]; simp), if_pos h0, if_neg (not_not.mpr cg), if_pos cg]
  dsimp only
  rw [if_neg (not_not.mpr cu), if_pos cu]
  have e1 : ∀ x : World, x.rgid = w.rgid → x.uinfo = w.uinfo →
      drop_confirm_gid nosuid x = none := by
    intro x a b
    simp [drop_confirm_gid, getgid, a, b, hg]
  have e2 : ∀ x : World, x.ruid = w.ruid → x.uinfo = w.uinfo →
      drop_confirm_uid nosuid x = none := by
    intro x a b
    simp [drop_confirm_uid, getuid, a, b, hu]
  simp [e1, e2]

/-- One round `priv_escalate(); priv_drop();` from a state in which the toggle
can be repeated: both calls return, the effective ids are 0 in between and the
baseline at the end, and the toggle can be repeated again. -/
theorem toggle_round (nosuid : Bool) {w : World} (hw : toggle_ready w) :
    ∃ w1 w2, priv_escalate w = .ok () w1 ∧ w1.euid = 0 ∧ w1.egid = 0 ∧
      priv_drop nosuid w1 = .ok () w2 ∧ toggle_ready w2 ∧
      w2.euid = w2.uinfo.uid ∧ w2.egid = w2.uinfo.gid ∧ w2.uinfo = w.uinfo := by
  obtain ⟨hr, h0, hu, hg, nu, ng, hs⟩ := hw
  refine ⟨_, _, priv_escalate_permitted h0 (Or.inr hs), rfl, rfl,
    priv_drop_permitted nosuid hr h0 rfl hu hg nu ng, ?_, rfl, rfl, rfl⟩
  exact ⟨hr, h0, hu, hg, nu, ng, hs⟩

theorem toggle_cycles_ready (nosuid : Bool) (n : Nat) :
    ∀ w, toggle_ready w → 1 ≤ n →
      ∃ w', toggle_cycles nosuid n w = .ok () w' ∧ toggle_ready w' ∧
        w'.euid = w'.uinfo.uid ∧ w'.egid = w'.uinfo.gid ∧ w'.uinfo = w.uinfo := by
  induction n with
  | zero => intro w _ h; omega
  | succ k ih =>
    intro w hw _
    obtain ⟨w1, w2, he, _, _, hd, hw2, a, b, c⟩ := toggle_round nosuid hw
    unfold toggle_cycles
    rw [he]
    simp only
    rw [hd]
    simp only
    by_cases hk : k = 0
    · subst hk
      exact ⟨w2, rfl, hw2, a, b, c⟩
    · obtain ⟨w', h1, h2, h3, h4, h5⟩ := ih w2 hw2 (by omega)
      exact ⟨w', h1, h2, h3, h4, h5.trans c⟩

/-! ## The stored baseline is never written after `priv_init` -/

theorem priv_escalate_uinfo {w w' : World} (h : priv_escalate w = .ok () w') :
    w'.uinfo = w.uinfo := by
  rcases priv_escalate_returned h with ⟨_, rfl⟩ | ⟨_, _, rfl⟩ <;> rfl

theorem priv_drop_uinfo {nosuid : Bool} {w w' : World} (h : priv_drop nosuid w = .ok () w') :
    w'.uinfo = w.uinfo := by
  have := (priv_drop_uids nosuid w).2.2.1
  rw [h] at this
  exact this

theorem priv_drop_perm_uinfo {ns : Int} {o : FileOracle} {w w' : World}
    (h : priv_drop_perm ns o w = .ok () w') : w'.uinfo = w.uinfo := by
  by_cases hns : ns = 0
  · subst hns
    exact (priv_drop_perm_zero_same_state h).2.2.2.2.2.2.2.2
  · by_cases hr : w.uinfo.ready = 1
    · rw [priv_drop_perm_ns hns hr] at h
      split_ifs at h with hU
      · split at h
        · exact absurd h (by simp)
        · rename_i w2 hs
          obtain ⟨rfl, _, _⟩ := drop_perm_confirm_ok h
          exact (drop_perm_setuid_returned hs).2.1
      · obtain ⟨rfl, _, _⟩ := drop_perm_confirm_ok h
        rfl
    · rw [priv_drop_perm_not_ready hr] at h
      exact absurd h (by simp)

theorem call_uinfo {nosuid : Bool} {c : Call} {w w' : World}
    (h : c.run nosuid w = .ok () w') : w'.uinfo = w.uinfo := by
  cases c with
  | escalate => exact priv_escalate_uinfo h
  | drop => exact priv_drop_uinfo h
  | userns_init o =>
    have hs := priv_userns_init_same_state o w
    rw [Call.run] at h
    rw [h] at hs
    exact hs.2.2.2.2.2.2.2.2
  | drop_perm ns o => exact priv_drop_perm_uinfo h

theorem run_calls_uinfo {nosuid : Bool} (calls : List Call) :
    ∀ w w', run_calls nosuid calls w = .ok () w' → w'.uinfo = w.uinfo := by
  induction calls with
  | nil =>
    intro w w' h
    simp only [run_calls, Outcome.ok.injEq, true_and] at h
    rw [h]
  | cons c cs ih =>
    intro w w' h
    unfold run_calls at h
    cases hrun : c.run nosuid w with
    | abort r s wa =>
      rw [hrun] at h
      exact absurd h (by simp)
    | ok v w1 =>
      rw [hrun] at h
      exact (ih w1 w' h).trans (call_uinfo hrun)

/-- What `priv_init` leaves in `uinfo` when it returns: the two flags that no
statement assigns are 0, and `target_mode` is either 0, or 1 in the build
without setuid with a baseline in `[500, 65534]` and no supplementary group. -/
theorem priv_init_uinfo_facts {nosuid : Bool} {str2int : String → Option Int}
    {env : Environ} {w0 w : World} (h : priv_init nosuid str2int env w0 = .ok () w) :
    w.uinfo.userns_ready = 0 ∧ w.uinfo.disable_setgroups = 0 ∧
    (w.uinfo.target_mode = 0 ∨
     (nosuid = true ∧ w.uinfo.target_mode = 1 ∧
      500 ≤ w.uinfo.uid ∧ w.uinfo.uid ≤ 65534 ∧
      500 ≤ w.uinfo.gid ∧ w.uinfo.gid ≤ 65534 ∧
      w.uinfo.gids = [] ∧ w.uinfo.gids_count = 0)) := by
  by_cases h0 : w0.ruid = 0
  · obtain ⟨_, _, _, _, _, _, _, a, b, c⟩ := priv_init_returned_root h0 h
    refine ⟨a, b, ?_⟩
    rcases c with ⟨c, _⟩ | c
    · exact Or.inl c
    · exact Or.inr c
  · obtain ⟨_, _, _, t, a, b, _⟩ := priv_init_returned_nonroot h0 h
    exact ⟨a, b, Or.inl t⟩

/-- Every state after `priv_init` has the `uinfo` that `priv_init` left. -/
theorem reachable_uinfo_facts {nosuid : Bool} {w : World} (h : Reachable nosuid w) :
    w.uinfo.userns_ready = 0 ∧ w.uinfo.disable_setgroups = 0 ∧
    (w.uinfo.target_mode = 0 ∨
     (nosuid = true ∧ w.uinfo.target_mode = 1 ∧
      500 ≤ w.uinfo.uid ∧ w.uinfo.uid ≤ 65534 ∧
      500 ≤ w.uinfo.gid ∧ w.uinfo.gid ≤ 65534 ∧
      w.uinfo.gids = [] ∧ w.uinfo.gids_count = 0)) := by
  obtain ⟨str2int, env, w0, wi, calls, hi, hc⟩ := h
  rw [run_calls_uinfo calls wi w hc]
  exact priv_init_uinfo_facts hi

/-! ## The records written to the control files -/

theorem fmt_i_small {v : Nat} (h : v < 2147483648) : fmt_i v = toString v := by
  unfold fmt_i int_of_bits32
  have hm : v % 4294967296 = v := Nat.mod_eq_of_lt (by omega)
  rw [hm, if_pos h]
  rfl

theorem proc_path_nat (P : Nat) (name : String) :
    proc_path (P : Int) name = "/proc/" ++ toString P ++ ("/" ++ name) := by
  unfold proc_path
  rw [String.append_assoc]
  rfl

theorem proc_path_setgroups (P : Nat) :
    proc_path (P : Int) "setgroups" = "/proc/" ++ toString P ++ "/setgroups" := by
  rw [proc_path_nat]
  rfl

theorem proc_path_gid_map (P : Nat) :
    proc_path (P : Int) "gid_map" = "/proc/" ++ toString P ++ "/gid_map" := by
  rw [proc_path_nat]
  rfl

theorem proc_path_uid_map (P : Nat) :
    proc_path (P : Int) "uid_map" = "/proc/" ++ toString P ++ "/uid_map" := by
  rw [proc_path_nat]
  rfl

/-- The function `priv_userns_init` when every open and every close succeeds. -/
theorem priv_userns_init_written {o : FileOracle} {w : World} (hr : w.uinfo.ready ≠ 0)
    (h1 : o.setgroups.open_ok = true) (h2 : o.gid_map.open_ok = true)
    (h3 : o.uid_map.open_ok = true) (c1 : o.setgroups.close_ok = true)
    (c2 : o.gid_map.close_ok = true) (c3 : o.uid_map.close_ok = true) :
    priv_userns_init o w = .ok () { w with trace := w.trace ++ userns_events o w } := by
  unfold priv_userns_init userns_events
  simp only [priv_getuid_ready hr, priv_getgid_ready hr, write_control_opened h1,
    write_control_opened h2, write_control_opened h3, getpid, c1, c2, c3, if_true]
  simp [List.append_assoc]

/-- With successful closes, ids below `2^31` and a pid that is not negative,
the events of `priv_userns_init` are the three records of the specification
with the texts `0 G 1` and `0 U 1`. -/
theorem userns_events_spec {o : FileOracle} {w : World} {U G P : Nat}
    (hu : w.uinfo.uid = U) (hg : w.uinfo.gid = G) (hp : w.pid = (P : Int))
    (hU : U < 2147483648) (hG : G < 2147483648)
    (c1 : o.setgroups.close_ok = true) (c2 : o.gid_map.close_ok = true)
    (c3 : o.uid_map.close_ok = true) :
    userns_events o w =
      spec_records P ("0 " ++ toString G ++ " 1\n") ("0 " ++ toString U ++ " 1\n") o := by
  unfold userns_events spec_records control_events
  rw [hu, hg, hp, fmt_i_small hU, fmt_i_small hG, c1, c2, c3]
  simp only [proc_path_setgroups, proc_path_gid_map, proc_path_uid_map]
  rfl

/-- With successful closes, ids below `2^31` and a pid that is not negative,
the events of the first branch of `priv_drop_perm` are the three records of
the specification with the texts `G 0 1` and `U 0 1`. -/
theorem drop_perm_events_spec {o : FileOracle} {w : World} {U G P : Nat}
    (hu : w.uinfo.uid = U) (hg : w.uinfo.gid = G) (hp : w.pid = (P : Int))
    (hU : U < 2147483648) (hG : G < 2147483648)
    (c1 : o.setgroups.close_ok = true) (c2 : o.gid_map.close_ok = true)
    (c3 : o.uid_map.close_ok = true) :
    drop_perm_events o w =
      spec_records P (toString G ++ " 0 1\n") (toString U ++ " 0 1\n") o := by
  unfold drop_perm_events spec_records control_events
  rw [hu, hg, hp, fmt_i_small hU, fmt_i_small hG, c1, c2, c3]
  simp only [proc_path_setgroups, proc_path_gid_map, proc_path_uid_map]
  rfl

/-! ## The namespace bootstrap, file by file -/

theorem userns_setgroups_refused {o : FileOracle} {w : World} (hr : w.uinfo.ready ≠ 0)
    (h1 : o.setgroups.open_ok = false) :
    priv_userns_init o w = .abort 255 .userns_setgroups_open
      { w with trace := w.trace ++ [Event.fopen (proc_path w.pid "setgroups") false] } := by
  simp only [priv_userns_init, priv_getuid_ready hr, priv_getgid_ready hr,
    write_control_refused h1, getpid]

theorem userns_setgroups_unclosed {o : FileOracle} {w : World} (hr : w.uinfo.ready ≠ 0)
    (h1 : o.setgroups.open_ok = true) (c1 : o.setgroups.close_ok = false) :
    priv_userns_init o w = .abort 255 .userns_setgroups_close
      { w with trace := w.trace ++
          control_events (proc_path w.pid "setgroups") "deny\n" o.setgroups } := by
  simp only [priv_userns_init, priv_getuid_ready hr, priv_getgid_ready hr,
    write_control_opened h1, getpid, c1]
  rfl

theorem userns_gid_map_refused {o : FileOracle} {w : World} (hr : w.uinfo.ready ≠ 0)
    (h1 : o.setgroups.open_ok = true) (c1 : o.setgroups.close_ok = true)
    (h2 : o.gid_map.open_ok = false) :
    priv_userns_init o w = .abort 255 .userns_gid_map_open
      { w with trace := w.trace ++
          (control_events (proc_path w.pid "setgroups") "deny\n" o.setgroups ++
           [Event.fopen (proc_path w.pid "gid_map") false]) } := by
  simp only [priv_userns_init, priv_getuid_ready hr, priv_getgid_ready hr,
    write_control_opened h1, write_control_refused h2, getpid, c1, if_true]
  simp [List.append_assoc]

theorem userns_gid_map_unclosed {o : FileOracle} {w : World} (hr : w.uinfo.ready ≠ 0)
    (h1 : o.setgroups.open_ok = true) (c1 : o.setgroups.close_ok = true)
    (h2 : o.gid_map.open_ok = true) (c2 : o.gid_map.close_ok = false) :
    priv_userns_init o w = .abort 255 .userns_gid_map_close
      { w with trace := w.trace ++
          (control_events (proc_path w.pid "setgroups") "deny\n" o.setgroups ++
           control_events (proc_path w.pid "gid_map")
             ("0 " ++ fmt_i w.uinfo.gid ++ " 1\n") o.gid_map) } := by
  simp only [priv_userns_init, priv_getuid_ready hr, priv_getgid_ready hr,
    write_control_opened h1, write_control_opened h2, getpid, c1, c2, if_true]
  simp [List.append_assoc]

theorem userns_uid_map_refused {o : FileOracle} {w : World} (hr : w.uinfo.ready ≠ 0)
    (h1 : o.setgroups.open_ok = true) (c1 : o.setgroups.close_ok = true)
    (h2 : o.gid_map.open_ok = true) (c2 : o.gid_map.close_ok = true)
    (h3 : o.uid_map.open_ok = false) :
    priv_userns_init o w = .abort 255 .userns_uid_map_open
      { w with trace := w.trace ++
          (control_events (proc_path w.pid "setgroups") "deny\n" o.setgroups ++
           control_events (proc_path w.pid "gid_map")
             ("0 " ++ fmt_i w.uinfo.gid ++ " 1\n") o.gid_map ++
           [Event.fopen (proc_path w.pid "uid_map") false]) } := by
  simp only [priv_userns_init, priv_getuid_ready hr, priv_getgid_ready hr,
    write_control_opened h1, write_control_opened h2, write_control_refused h3, getpid,
    c1, c2, if_true]
  simp [List.append_assoc]

theorem userns_uid_map_unclosed {o : FileOracle} {w : World} (hr : w.uinfo.ready ≠ 0)
    (h1 : o.setgroups.open_ok = true) (c1 : o.setgroups.close_ok = true)
    (h2 : o.gid_map.open_ok = true) (c2 : o.gid_map.close_ok = true)
    (h3 : o.uid_map.open_ok = true) (c3 : o.uid_map.close_ok = false) :
    priv_userns_init o w = .abort 255 .userns_uid_map_close
      { w with trace := w.trace ++ userns_events o w } := by
  simp only [priv_userns_init, priv_getuid_ready hr, priv_getgid_ready hr,
    write_control_opened h1, write_control_opened h2, write_control_opened h3, getpid,
    c1, c2, c3, if_true, userns_events]
  simp [List.append_assoc]

theorem new_events_append (w : World) (es : List Event) :
    new_events w { w with trace := w.trace ++ es } = es := by
  simp [new_events]

theorem fopen_calls_control (path text : String) (fo : FileOutcome) (es : List Event) :
    fopen_calls (control_events path text fo ++ es) = path :: fopen_calls es := by
  simp [control_events, fopen_calls]

theorem written_records_control (path text : String) (fo : FileOutcome) (es : List Event) :
    written_records (control_events path text fo ++ es) = (path, text) :: written_records es := by
  simp [control_events, written_records]

/-! ## The trace of the setuid-style drop -/

theorem setgroups_trace (n : Nat) (l : List Nat) (w : World) :
    (setgroups n l w).2.trace = w.trace ++ [Event.setgroups n l (setgroups n l w).1] := by
  unfold setgroups World.log
  split_ifs <;> rfl

theorem setgid_trace (g : Nat) (w : World) :
    (setgid g w).2.trace = w.trace ++ [Event.setgid g (setgid g w).1] := by
  unfold setgid World.log
  split_ifs <;> rfl

theorem setregid_trace (r e : Nat) (w : World) :
    (setregid r e w).2.trace = w.trace ++ [Event.setregid r e (setregid r e w).1] := by
  unfold setregid World.log
  split_ifs <;> rfl

theorem setreuid_trace (r e : Nat) (w : World) :
    (setreuid r e w).2.trace = w.trace ++ [Event.setreuid r e (setreuid r e w).1] := by
  unfold setreuid World.log
  split_ifs <;> rfl

theorem setgid_ret {g : Nat} {w : World} (h : ¬ (setgid g w).1 < 0) : (setgid g w).1 = 0 := by
  unfold setgid at h ⊢
  split_ifs at h ⊢ <;> simp_all

theorem setregid_ret {r e : Nat} {w : World} (h : ¬ (setregid r e w).1 < 0) :
    (setregid r e w).1 = 0 := by
  unfold setregid at h ⊢
  split_ifs at h ⊢ <;> simp_all

theorem setreuid_ret {r e : Nat} {w : World} (h : ¬ (setreuid r e w).1 < 0) :
    (setreuid r e w).1 = 0 := by
  unfold setreuid at h ⊢
  split_ifs at h ⊢ <;> simp_all

theorem setgid_uinfo (g : Nat) (w : World) : (setgid g w).2.uinfo = w.uinfo := by
  unfold setgid World.log
  split_ifs <;> rfl

theorem setregid_uinfo (r e : Nat) (w : World) : (setregid r e w).2.uinfo = w.uinfo := by
  unfold setregid World.log
  split_ifs <;> rfl

/-- The events of the reset of the supplementary groups in the setuid-style
drop: one `setgroups` call with the stored count and list, unless
`userns_ready` is set. -/
theorem drop_perm_groups_trace (w : World) :
    ∃ es : List Event,
      (if w.uinfo.userns_ready = 0
        then (setgroups w.uinfo.gids_count w.uinfo.gids w).2 else w).trace = w.trace ++ es ∧
      (w.uinfo.userns_ready = 0 →
        ∃ r, es = [Event.setgroups w.uinfo.gids_count w.uinfo.gids r]) ∧
      (w.uinfo.userns_ready ≠ 0 → es = []) := by
  by_cases h : w.uinfo.userns_ready = 0
  · refine ⟨[Event.setgroups w.uinfo.gids_count w.uinfo.gids
      (setgroups w.uinfo.gids_count w.uinfo.gids w).1], ?_, fun _ => ⟨_, rfl⟩,
      fun hn => absurd h hn⟩
    rw [if_pos h, setgroups_trace]
  · refine ⟨[], ?_, fun h0 => absurd h0 h, fun _ => rfl⟩
    rw [if_neg h, List.append_nil]

/-- Whatever the setuid-style drop does, its events are the reset of the
groups followed by a `setgid` call with the baseline gid, then the events of
the calls made after it. -/
theorem drop_perm_setuid_trace (w : World) :
    ∃ (es rest : List Event) (r : Int),
      (drop_perm_setuid w).world.trace
        = w.trace ++ (es ++ Event.setgid w.uinfo.gid r :: rest) ∧
      (w.uinfo.userns_ready = 0 →
        ∃ r1, es = [Event.setgroups w.uinfo.gids_count w.uinfo.gids r1]) ∧
      (w.uinfo.userns_ready ≠ 0 → es = []) ∧
      ((drop_perm_setuid w).returned = true →
        r = 0 ∧ rest = [Event.setregid w.uinfo.gid w.uinfo.gid 0,
                        Event.setreuid w.uinfo.uid w.uinfo.uid 0]) := by
  obtain ⟨es, htr, hes1, hes2⟩ := drop_perm_groups_trace w
  have f1 := drop_perm_groups_frame w
  unfold drop_perm_setuid
  simp only at f1 ⊢
  generalize (if w.uinfo.userns_ready = 0
    then (setgroups w.uinfo.gids_count w.uinfo.gids w).2 else w) = w1 at f1 htr ⊢
  obtain ⟨u1, _⟩ := f1
  have t2 := setgid_trace w1.uinfo.gid w1
  have u2 := setgid_uinfo w1.uinfo.gid w1
  by_cases h2 : (setgid w1.uinfo.gid w1).1 < 0
  · refine ⟨es, [], (setgid w1.uinfo.gid w1).1, ?_, hes1, hes2, ?_⟩
    · rw [if_pos h2]
      simp only [Outcome.world]
      rw [t2, htr, u1, List.append_assoc]
    · rw [if_pos h2]
      intro hc
      exact absurd hc (by simp [Outcome.returned])
  · rw [if_neg h2]
    have r2 := setgid_ret h2
    generalize (setgid w1.uinfo.gid w1).2 = w2 at t2 u2 ⊢
    have t3 := setregid_trace w2.uinfo.gid w2.uinfo.gid w2
    have u3 := setregid_uinfo w2.uinfo.gid w2.uinfo.gid w2
    by_cases h3 : (setregid w2.uinfo.gid w2.uinfo.gid w2).1 < 0
    · refine ⟨es, [Event.setregid w.uinfo.gid w.uinfo.gid
        (setregid w2.uinfo.gid w2.uinfo.gid w2).1], 0, ?_, hes1, hes2, ?_⟩
      · rw [if_pos h3]
        simp only [Outcome.world]
        rw [t3, t2, htr, r2, u2, u1]
        simp [List.append_assoc]
      · rw [if_pos h3]
        intro hc
        exact absurd hc (by simp [Outcome.returned])
    · rw [if_neg h3]
      have r3 := setregid_ret h3
      generalize (setregid w2.uinfo.gid w2.uinfo.gid w2).2 = w3 at t3 u3 ⊢
      have t4 := setreuid_trace w3.uinfo.uid w3.uinfo.uid w3
      by_cases h4 : (setreuid w3.uinfo.uid w3.uinfo.uid w3).1 < 0
      · refine ⟨es, [Event.setregid w.uinfo.gid w.uinfo.gid 0,
          Event.setreuid w.uinfo.uid w.uinfo.uid
            (setreuid w3.uinfo.uid w3.uinfo.uid w3).1], 0, ?_, hes1, hes2, ?_⟩
        · rw [if_pos h4]
          simp only [Outcome.world]
          rw [t4, t3, t2, htr, r2, r3, u3, u2, u1]
          simp [List.append_assoc]
        · rw [if_pos h4]
          intro hc
          exact absurd hc (by simp [Outcome.returned])
      · rw [if_neg h4]
        have r4 := setreuid_ret h4
        refine ⟨es, [Event.setregid w.uinfo.gid w.uinfo.gid 0,
          Event.setreuid w.uinfo.uid w.uinfo.uid 0], 0, ?_, hes1, hes2, fun _ => ⟨rfl, rfl⟩⟩
        simp only [Outcome.world]
        rw [t4, t3, t2, htr, r2, r3, r4, u3, u2, u1]
        simp [List.append_assoc]

theorem drop_perm_confirm_world (w : World) : (drop_perm_confirm w).world = w := by
  unfold drop_perm_confirm
  split_ifs <;> rfl

theorem new_events_of_trace {w w' : World} {es : List Event}
    (h : w'.trace = w.trace ++ es) : new_events w w' = es := by
  simp [new_events, h]

/-- With a non-zero answer of the query and a baseline uid other than 0,
`priv_drop_perm` ends in the world in which the setuid-style drop ends, and
returns only if that drop returned. -/
theorem priv_drop_perm_world_setuid {ns : Int} {o : FileOracle} {w : World}
    (hns : ns ≠ 0) (hr : w.uinfo.ready = 1) (hU : w.uinfo.uid ≠ 0) :
    (priv_drop_perm ns o w).world = (drop_perm_setuid w).world ∧
    ((priv_drop_perm ns o w).returned = true → (drop_perm_setuid w).returned = true) := by
  rw [priv_drop_perm_ns hns hr, if_pos hU]
  cases hs : drop_perm_setuid w with
  | abort r s wa => exact ⟨rfl, fun h => h⟩
  | ok v w2 => exact ⟨drop_perm_confirm_world w2, fun _ => rfl⟩

/-- With a non-zero answer of the query and a baseline uid of 0,
`priv_drop_perm` makes no call: it ends in the world it started in. -/
theorem priv_drop_perm_world_skip {ns : Int} {o : FileOracle} {w : World}
    (hns : ns ≠ 0) (hr : w.uinfo.ready = 1) (hU : w.uinfo.uid = 0) :
    (priv_drop_perm ns o w).world = w := by
  rw [priv_drop_perm_ns hns hr, if_neg (by simpa using hU)]
  exact drop_perm_confirm_world w

/-! ## `priv_drop` in a state after `priv_init` -/

/-- The two tests at the end of `priv_drop` pass in every world whose real ids
are the stored baseline. -/
theorem drop_confirm_real_identity (nosuid : Bool) {x : World}
    (hu : x.uinfo.uid = x.ruid) (hg : x.uinfo.gid = x.rgid) :
    drop_confirm_gid nosuid x = none ∧ drop_confirm_uid nosuid x = none := by
  simp [drop_confirm_gid, drop_confirm_uid, getgid, getuid, hu, hg]

/-- The function `priv_drop` for a process whose real uid is not 0 and whose
baseline is its real identity: both calls are permitted and both tests pass. -/
theorem priv_drop_real_identity (nosuid : Bool) {w : World} (hr : w.uinfo.ready = 1)
    (h0 : w.ruid ≠ 0) (hu : w.uinfo.uid = w.ruid) (hg : w.uinfo.gid = w.rgid)
    (nu : w.uinfo.uid ≠ ID_NONE) (ng : w.uinfo.gid ≠ ID_NONE) :
    priv_drop nosuid w = .ok ()
      { w with egid := w.uinfo.gid, euid := w.uinfo.uid,
               trace := w.trace ++ [Event.setegid w.uinfo.gid 0,
                                    Event.seteuid w.uinfo.uid 0] } := by
  unfold priv_drop
  simp only [seteuid_fst_neg, seteuid_snd, setegid_fst_neg, setegid_snd, getuid]
  have cg : w.uinfo.gid ≠ ID_NONE ∧
      (w.euid = 0 ∨ w.uinfo.gid = w.rgid ∨ w.uinfo.gid = w.egid ∨ w.uinfo.gid = w.sgid) :=
    ⟨ng, Or.inr (Or.inl hg)⟩
  have cu : w.uinfo.uid ≠ ID_NONE ∧
      (w.euid = 0 ∨ w.uinfo.uid = w.ruid ∨ w.uinfo.uid = w.euid ∨ w.uinfo.uid = w.suid) :=
    ⟨nu, Or.inr (Or.inl hu)⟩
  rw [if_neg (by rw [hr]; simp), if_pos h0, if_neg (not_not.mpr cg), if_pos cg]
  dsimp only
  rw [if_neg (not_not.mpr cu), if_pos cu]
  have e1 : ∀ x : World, x.rgid = w.rgid → x.uinfo = w.uinfo →
      drop_confirm_gid nosuid x = none := by
    intro x a b
    simp [drop_confirm_gid, getgid, a, b, hg]
  have e2 : ∀ x : World, x.ruid = w.ruid → x.uinfo = w.uinfo →
      drop_confirm_uid nosuid x = none := by
    intro x a b
    simp [drop_confirm_uid, getuid, a, b, hu]
  simp [e1, e2]

/-- In a state that keeps `baseline_inv`, `priv_drop` returns. -/
theorem priv_drop_returns_of_inv (nosuid : Bool) {w : World} (hw : baseline_inv w) :
    (priv_drop nosuid w).returned = true := by
  by_cases h0 : w.ruid = 0
  · rw [priv_drop_root hw.1 h0]
    rfl
  · obtain ⟨hu, hg, _⟩ := hw.2.2 h0
    have hne : w.uinfo.uid ≠ 0 := by rw [hu]; exact h0
    obtain ⟨nu, ng⟩ := hw.2.1 hne
    rw [priv_drop_real_identity nosuid hw.1 h0 hu hg nu ng]
    rfl

/-! ## Exact outcomes of the failing paths -/

/-- The function `priv_escalate` for a process whose real uid is 0: nothing is
done. -/
theorem priv_escalate_root {w : World} (h0 : w.ruid = 0) : priv_escalate w = .ok () w := by
  simp [priv_escalate, getuid, h0]

/-- The function `priv_escalate` for a process none of whose user ids is 0:
`seteuid(0)` is refused, `setegid` is not called, and the process ends with
status 255. -/
theorem priv_escalate_refused {w : World} (h1 : w.ruid ≠ 0) (h2 : w.euid ≠ 0)
    (h3 : w.suid ≠ 0) :
    priv_escalate w = .abort 255 .escalate_denied
      { w with trace := w.trace ++ [Event.seteuid 0 (-1)] } := by
  have a1 : ¬ (0 = w.ruid) := fun h => h1 h.symm
  have a2 : ¬ (0 = w.euid) := fun h => h2 h.symm
  have a3 : ¬ (0 = w.suid) := fun h => h3 h.symm
  unfold priv_escalate
  simp [seteuid_fst_neg, seteuid_snd, getuid, h1, h2, a1, a2, a3]

theorem maps_setgroups_refused {o : FileOracle} {w : World} (hr : w.uinfo.ready ≠ 0)
    (h1 : o.setgroups.open_ok = false) :
    drop_perm_maps o w = .abort 255 .perm_setgroups_open
      { w with trace := w.trace ++ [Event.fopen (proc_path w.pid "setgroups") false] } := by
  simp only [drop_perm_maps, priv_getuid_ready hr, priv_getgid_ready hr,
    write_control_refused h1, getpid]

theorem maps_gid_map_refused {o : FileOracle} {w : World} (hr : w.uinfo.ready ≠ 0)
    (h1 : o.setgroups.open_ok = true) (h2 : o.gid_map.open_ok = false) :
    drop_perm_maps o w = .abort 255 .perm_gid_map_open
      { w with trace := w.trace ++
          (control_events (proc_path w.pid "setgroups") "deny\n" o.setgroups ++
           [Event.fopen (proc_path w.pid "gid_map") false]) } := by
  simp only [drop_perm_maps, priv_getuid_ready hr, priv_getgid_ready hr,
    write_control_opened h1, write_control_refused h2, getpid]
  cases o.setgroups.close_ok <;> simp [List.append_assoc]

theorem maps_uid_map_refused {o : FileOracle} {w : World} (hr : w.uinfo.ready ≠ 0)
    (h1 : o.setgroups.open_ok = true) (h2 : o.gid_map.open_ok = true)
    (h3 : o.uid_map.open_ok = false) :
    drop_perm_maps o w = .abort 255 .perm_uid_map_open
      { w with trace := w.trace ++
          (control_events (proc_path w.pid "setgroups") "deny\n" o.setgroups ++
           control_events (proc_path w.pid "gid_map")
             (fmt_i w.uinfo.gid ++ " 0 1\n") o.gid_map ++
           [Event.fopen (proc_path w.pid "uid_map") false]) } := by
  simp only [drop_perm_maps, priv_getuid_ready hr, priv_getgid_ready hr,
    write_control_opened h1, write_control_opened h2, write_control_refused h3, getpid]
  cases o.setgroups.close_ok <;> cases o.gid_map.close_ok <;> simp [List.append_assoc]

/-! # The properties -/

/-! ## Terminal drop: the final identity check (C1) -/

/-- C1, as amended.  When `priv_drop_perm` returns after the user-namespace
query answered non-zero (the setuid-style drop or the root-already path), the
real gid equals the baseline gid and the real uid equals the baseline uid.
When the query answered 0 (the control-file branch) the function returns before
the final check: credentials and `uinfo` are what they were. -/
theorem priv_drop_perm_final_check (ns : Int) (o : FileOracle) (w w' : World)
    (h : priv_drop_perm ns o w = .ok () w') :
    (ns ≠ 0 → getgid w' = w'.uinfo.gid ∧ getuid w' = w'.uinfo.uid) ∧
    (ns = 0 → w.same_state w') := by
  by_cases hr : w.uinfo.ready = 1
  · constructor
    · intro hns
      rw [priv_drop_perm_ns hns hr] at h
      split_ifs at h with h1
      · split at h
        · exact absurd h (by simp)
        · obtain ⟨rfl, hg, hu⟩ := drop_perm_confirm_ok h
          exact ⟨hg, hu⟩
      · obtain ⟨rfl, hg, hu⟩ := drop_perm_confirm_ok h
        exact ⟨hg, hu⟩
    · intro hns
      subst hns
      exact priv_drop_perm_zero_same_state h
  · rw [priv_drop_perm_not_ready hr] at h
    exact absurd h (by simp)

/-- A run of C1 as amended: the setuid-style drop from the target-mode world
returns, with real ids equal to the baseline 1000. -/
theorem priv_drop_perm_final_check_witness :
    priv_drop_perm 1 ⟨file_ok, file_ok, file_ok⟩ target_world
      = .ok () (priv_drop_perm 1 ⟨file_ok, file_ok, file_ok⟩ target_world).world ∧
    (priv_drop_perm 1 ⟨file_ok, file_ok, file_ok⟩ target_world).world.ruid = 1000 ∧
    (((1 : Int) ≠ 0 →
        getgid (priv_drop_perm 1 ⟨file_ok, file_ok, file_ok⟩ target_world).world
          = (priv_drop_perm 1 ⟨file_ok, file_ok, file_ok⟩ target_world).world.uinfo.gid ∧
        getuid (priv_drop_perm 1 ⟨file_ok, file_ok, file_ok⟩ target_world).world
          = (priv_drop_perm 1 ⟨file_ok, file_ok, file_ok⟩ target_world).world.uinfo.uid) ∧
     ((1 : Int) = 0 →
        target_world.same_state
          (priv_drop_perm 1 ⟨file_ok, file_ok, file_ok⟩ target_world).world)) :=
  ⟨rfl, rfl, priv_drop_perm_final_check 1 ⟨file_ok, file_ok, file_ok⟩ target_world _ rfl⟩

/-- C1 fails as stated.  A process started by root with both target variables
set to 1000 completes `priv_init`; `priv_drop_perm` with the query answering 0
then returns although the real uid and gid are 0 and the baseline is 1000. -/
theorem priv_drop_perm_maps_skips_final_check :
    (priv_init true decimal_str2int target_env root_start).returned = true ∧
    target_world.uinfo.ready = 1 ∧
    (priv_drop_perm 0 ⟨file_close_fails, file_close_fails, file_close_fails⟩
      target_world).returned = true ∧
    getuid (priv_drop_perm 0 ⟨file_close_fails, file_close_fails, file_close_fails⟩
      target_world).world = 0 ∧
    getgid (priv_drop_perm 0 ⟨file_close_fails, file_close_fails, file_close_fails⟩
      target_world).world = 0 ∧
    (priv_drop_perm 0 ⟨file_close_fails, file_close_fails, file_close_fails⟩
      target_world).world.uinfo.uid = 1000 ∧
    (priv_drop_perm 0 ⟨file_close_fails, file_close_fails, file_close_fails⟩
      target_world).world.uinfo.gid = 1000 := by
  decide

/-! ## Terminal drop: the control-file branch (C2) -/

/-- C2, as amended.  In a ready state, when the query answers 0: if the three
opens succeed then, whatever the results of the writes and closes,
`priv_drop_perm` returns after the open, write and close of setgroups, gid_map
and uid_map in that order.  If one of the opens fails the process is ended with
status 255 at that open: the files before it were opened, written and closed,
the failed open is the last event, and no later file is touched. -/
theorem priv_drop_perm_maps_best_effort (o : FileOracle) (w : World)
    (hr : w.uinfo.ready = 1) :
    ((o.setgroups.open_ok = true ∧ o.gid_map.open_ok = true ∧ o.uid_map.open_ok = true) →
      priv_drop_perm 0 o w = .ok ()
        { w with trace := w.trace ++ drop_perm_events o w }) ∧
    ((o.setgroups.open_ok = false ∨ o.gid_map.open_ok = false ∨ o.uid_map.open_ok = false) →
      (priv_drop_perm 0 o w).returned = false) ∧
    (o.setgroups.open_ok = false →
      priv_drop_perm 0 o w = .abort 255 .perm_setgroups_open
        { w with trace := w.trace ++ [Event.fopen (proc_path w.pid "setgroups") false] }) ∧
    (o.setgroups.open_ok = true → o.gid_map.open_ok = false →
      priv_drop_perm 0 o w = .abort 255 .perm_gid_map_open
        { w with trace := w.trace ++
            (control_events (proc_path w.pid "setgroups") "deny\n" o.setgroups ++
             [Event.fopen (proc_path w.pid "gid_map") false]) }) ∧
    (o.setgroups.open_ok = true → o.gid_map.open_ok = true → o.uid_map.open_ok = false →
      priv_drop_perm 0 o w = .abort 255 .perm_uid_map_open
        { w with trace := w.trace ++
            (control_events (proc_path w.pid "setgroups") "deny\n" o.setgroups ++
             control_events (proc_path w.pid "gid_map")
               (fmt_i w.uinfo.gid ++ " 0 1\n") o.gid_map ++
             [Event.fopen (proc_path w.pid "uid_map") false]) }) := by
  have h0 : w.uinfo.ready ≠ 0 := by omega
  have hp : priv_drop_perm 0 o w = drop_perm_maps o w := by
    simp [priv_drop_perm, hr]
  rw [hp]
  exact ⟨fun ho => drop_perm_maps_opened h0 ho.1 ho.2.1 ho.2.2,
    fun ho => drop_perm_maps_refused ho,
    fun h1 => maps_setgroups_refused h0 h1,
    fun h1 h2 => maps_gid_map_refused h0 h1 h2,
    fun h1 h2 h3 => maps_uid_map_refused h0 h1 h2 h3⟩

/-- A run of C2 as amended: when every write and close fails the function
returns; when gid_map cannot be opened the process ends with status 255 after
the three events of setgroups and the failed open, uid_map untouched. -/
theorem priv_drop_perm_maps_best_effort_witness :
    target_world.uinfo.ready = 1 ∧
    (priv_drop_perm 0 ⟨file_close_fails, file_close_fails, file_close_fails⟩
      target_world).returned = true ∧
    priv_drop_perm 0 ⟨file_ok, file_open_fails, file_ok⟩ target_world
      = .abort 255 .perm_gid_map_open
        { target_world with trace := target_world.trace ++
            (control_events (proc_path target_world.pid "setgroups") "deny\n" file_ok ++
             [Event.fopen (proc_path target_world.pid "gid_map") false]) } ∧
    new_events target_world
      (priv_drop_perm 0 ⟨file_ok, file_open_fails, file_ok⟩ target_world).world
      = [Event.fopen "/proc/77/setgroups" true,
         Event.fprintf "/proc/77/setgroups" "deny\n" true,
         Event.fclose "/proc/77/setgroups" true,
         Event.fopen "/proc/77/gid_map" false] :=
  ⟨by decide, by
    rw [(priv_drop_perm_maps_best_effort
      ⟨file_close_fails, file_close_fails, file_close_fails⟩ target_world
      (by decide)).1 (by decide)]
    rfl,
   (priv_drop_perm_maps_best_effort ⟨file_ok, file_open_fails, file_ok⟩ target_world
      (by decide)).2.2.2.1 rfl rfl,
   by decide⟩

/-- C2 fails as stated.  In a ready state with the query answering 0, a
setgroups file that cannot be opened ends the process: the only event is the
failed open, gid_map and uid_map are not attempted. -/
theorem priv_drop_perm_maps_open_failure_fatal :
    target_world.uinfo.ready = 1 ∧
    priv_drop_perm 0 ⟨file_open_fails, file_ok, file_ok⟩ target_world =
      .abort 255 .perm_setgroups_open
        { target_world with trace := [Event.fopen "/proc/77/setgroups" false] } := by
  decide

/-! ## Operations before `priv_init` (C3) -/

/-- C3, as amended.  In a state where `ready` is 0, `priv_drop`,
`priv_userns_init`, `priv_drop_perm`, `priv_getuid`, `priv_getgid`,
`priv_getgids` and `priv_getgidcount` each end the process with status 255 and
leave the state as it was.  `priv_escalate` does not look at `ready`: it
returns exactly when the real, the effective or the saved user id is 0, as a
no-op when the real uid is 0 and otherwise with both effective ids raised to 0
by `seteuid(0)` then `setegid(0)`; when none of the three is 0 it ends the
process with status 255 after the refused `seteuid(0)`. -/
theorem not_ready_aborts (nosuid : Bool) (ns : Int) (o : FileOracle) (w : World)
    (hr : w.uinfo.ready = 0) :
    priv_drop nosuid w = .abort 255 .drop_not_ready w ∧
    priv_userns_init o w = .abort 255 .getuid_not_ready w ∧
    priv_drop_perm ns o w = .abort 255 .perm_not_ready w ∧
    priv_getuid w = .abort 255 .getuid_not_ready w ∧
    priv_getgid w = .abort 255 .getgid_not_ready w ∧
    priv_getgids w = .abort 255 .getgids_not_ready w ∧
    priv_getgidcount w = .abort 255 .getgidcount_not_ready w ∧
    ((priv_escalate w).returned = true ↔ w.ruid = 0 ∨ w.euid = 0 ∨ w.suid = 0) ∧
    (w.ruid = 0 → priv_escalate w = .ok () w) ∧
    (w.ruid ≠ 0 → (w.euid = 0 ∨ w.suid = 0) →
      priv_escalate w = .ok ()
        { w with euid := 0, egid := 0,
                 trace := w.trace ++ [Event.seteuid 0 0, Event.setegid 0 0] }) ∧
    (w.ruid ≠ 0 → w.euid ≠ 0 → w.suid ≠ 0 →
      priv_escalate w = .abort 255 .escalate_denied
        { w with trace := w.trace ++ [Event.seteuid 0 (-1)] }) := by
  refine ⟨?_, ?_, ?_, ?_, ?_, ?_, ?_, ?_, fun h0 => priv_escalate_root h0,
    fun h0 hp => priv_escalate_permitted h0 hp,
    fun h1 h2 h3 => priv_escalate_refused h1 h2 h3⟩
  · simp [priv_drop, hr]
  · simp [priv_userns_init, priv_getuid, hr]
  · simp [priv_drop_perm, hr]
  · simp [priv_getuid, hr]
  · simp [priv_getgid, hr]
  · simp [priv_getgids, hr]
  · simp [priv_getgidcount, hr]
  · unfold priv_escalate getuid seteuid setegid World.log ID_NONE
    by_cases h1 : w.ruid = 0
    · simp [h1, Outcome.returned]
    · by_cases h2 : w.euid = 0
      · simp [h1, h2, Outcome.returned]
      · by_cases h3 : w.suid = 0
        · simp [h1, h2, h3, Outcome.returned]
        · have h1b : ¬ (0 = w.ruid) := fun h => h1 h.symm
          have h2b : ¬ (0 = w.euid) := fun h => h2 h.symm
          have h3b : ¬ (0 = w.suid) := fun h => h3 h.symm
          simp [h1, h2, h3, h1b, h2b, h3b, Outcome.returned]

/-- A run of C3 as amended, before `priv_init`: the other operations end a
process started by root, and `priv_escalate` raises the effective ids of the
setuid binary started by user 1000. -/
theorem not_ready_aborts_witness :
    root_start.uinfo.ready = 0 ∧ user_start.uinfo.ready = 0 ∧
    priv_drop true root_start = .abort 255 .drop_not_ready root_start ∧
    priv_getuid root_start = .abort 255 .getuid_not_ready root_start ∧
    priv_escalate user_start = .ok ()
      { user_start with euid := 0, egid := 0,
                        trace := user_start.trace ++
                          [Event.seteuid 0 0, Event.setegid 0 0] } :=
  ⟨rfl, rfl, (not_ready_aborts true 1 ⟨file_ok, file_ok, file_ok⟩ root_start rfl).1,
    (not_ready_aborts true 1 ⟨file_ok, file_ok, file_ok⟩ root_start rfl).2.2.2.1,
    (not_ready_aborts true 1 ⟨file_ok, file_ok, file_ok⟩ user_start rfl).2.2.2.2.2.2.2.2.2.1
      (by decide) (by decide)⟩

/-- C3 fails as stated.  Before `priv_init` (`ready` is 0), `priv_escalate`
returns: as a no-op for a process started by root, and with effective ids 0
for the setuid binary started by a user. -/
theorem priv_escalate_before_init_returns :
    root_start.uinfo.ready = 0 ∧ priv_escalate root_start = .ok () root_start ∧
    user_start.uinfo.ready = 0 ∧ (priv_escalate user_start).returned = true ∧
    (priv_escalate user_start).world.euid = 0 ∧
    (priv_escalate user_start).world.egid = 0 := by
  decide

/-! ## Identity resolution: the range of the target variables (C4) -/

/-- C4.  In the build without setuid, for a process whose real uid is 0 and
whose two target variables are read by `str2int` as `u` and `g`: `priv_init`
ends the process at one of the four range tests as soon as `u` or `g` is below
500 or above 65534, and when both lie in `[500, 65534]` the block that checks
the variables returns `(u, g)` and `priv_init` returns. -/
theorem priv_init_target_range (str2int : String → Option Int) (us gs : String)
    (u g : Int) (w : World) (h0 : getuid w = 0)
    (hu : str2int us = some u) (hg : str2int gs = some g) :
    ((u < 500 ∨ u > 65534 ∨ g < 500 ∨ g > 65534) →
      ∃ site, priv_init true str2int ⟨some us, some gs⟩ w
          = .abort 255 site { w with uinfo := PRIV_INFO.zero } ∧
        (site = .init_uid_below_500 ∨ site = .init_uid_above_65534 ∨
         site = .init_gid_below_500 ∨ site = .init_gid_above_65534)) ∧
    ((500 ≤ u ∧ u ≤ 65534 ∧ 500 ≤ g ∧ g ≤ 65534) →
      (∀ w1, priv_init_target str2int ⟨some us, some gs⟩ w1 = .ok (u, g) w1) ∧
      (priv_init true str2int ⟨some us, some gs⟩ w).returned = true) := by
  have h0r : w.ruid = 0 := h0
  constructor
  · intro hout
    unfold priv_init
    simp only [getuid, h0r, priv_init_target_both hu hg, and_self, if_true]
    by_cases a1 : u < 500
    · exact ⟨.init_uid_below_500, by simp [a1], by simp⟩
    · by_cases a2 : u > 65534
      · exact ⟨.init_uid_above_65534, by simp [a1, a2], by simp⟩
      · by_cases a3 : g < 500
        · exact ⟨.init_gid_below_500, by simp [a1, a2, a3], by simp⟩
        · by_cases a4 : g > 65534
          · exact ⟨.init_gid_above_65534, by simp [a1, a2, a3, a4], by simp⟩
          · omega
  · rintro ⟨hu1, hu2, hg1, hg2⟩
    constructor
    · intro w1
      rw [priv_init_target_both hu hg]
      have a1 : ¬ u < 500 := by omega
      have a2 : ¬ u > 65534 := by omega
      have a3 : ¬ g < 500 := by omega
      have a4 : ¬ g > 65534 := by omega
      simp [a1, a2, a3, a4]
    · rw [priv_init_target_mode hu hg w h0r hu1 hu2 hg1 hg2]
      rfl

/-- Runs of C4 at the four boundary values: 499 and 65535 end the process, 500
and 65534 are accepted. -/
theorem priv_init_target_range_witness :
    (priv_init true decimal_str2int ⟨some "499", some "500"⟩ root_start).returned = false ∧
    (priv_init true decimal_str2int ⟨some "500", some "65535"⟩ root_start).returned = false ∧
    (priv_init true decimal_str2int ⟨some "500", some "65534"⟩ root_start).returned = true ∧
    getuid root_start = 0 ∧
    ((∀ w1, priv_init_target decimal_str2int ⟨some "65534", some "500"⟩ w1
        = .ok (65534, 500) w1) ∧
     (priv_init true decimal_str2int ⟨some "65534", some "500"⟩ root_start).returned
        = true) :=
  ⟨by
    obtain ⟨site, h, _⟩ := (priv_init_target_range decimal_str2int "499" "500" 499 500
      root_start rfl (by decide) (by decide)).1 (by decide)
    rw [h]; rfl,
   by
    obtain ⟨site, h, _⟩ := (priv_init_target_range decimal_str2int "500" "65535" 500 65535
      root_start rfl (by decide) (by decide)).1 (by decide)
    rw [h]; rfl,
   ((priv_init_target_range decimal_str2int "500" "65534" 500 65534
      root_start rfl (by decide) (by decide)).2 (by decide)).2,
   rfl,
   (priv_init_target_range decimal_str2int "65534" "500" 65534 500
      root_start rfl (by decide) (by decide)).2 (by decide)⟩

/-! ## Identity resolution: the target baseline (C5) -/

/-- C5.  In the build without setuid, for a process whose real uid is 0 and
whose two target variables are read as `u` and `g` in `[500, 65534]`,
`priv_init` returns, and then the baseline uid is `u`, the baseline gid is `g`,
`target_mode` is 1, the group list is empty with count 0, and `ready` is 1. -/
theorem priv_init_target_baseline (str2int : String → Option Int) (us gs : String)
    (u g : Int) (w : World) (h0 : getuid w = 0)
    (hu : str2int us = some u) (hg : str2int gs = some g)
    (hu1 : 500 ≤ u) (hu2 : u ≤ 65534) (hg1 : 500 ≤ g) (hg2 : g ≤ 65534) :
    ∃ w1, priv_init true str2int ⟨some us, some gs⟩ w = .ok () w1 ∧
      (w1.uinfo.uid : Int) = u ∧ (w1.uinfo.gid : Int) = g ∧
      w1.uinfo.target_mode = 1 ∧ w1.uinfo.gids = [] ∧ w1.uinfo.gids_count = 0 ∧
      w1.uinfo.ready = 1 ∧
      priv_getuid w1 = .ok w1.uinfo.uid w1 ∧ priv_getgid w1 = .ok w1.uinfo.gid w1 ∧
      priv_getgidcount w1 = .ok 0 w1 := by
  refine ⟨_, priv_init_target_mode hu hg w h0 hu1 hu2 hg1 hg2, ?_⟩
  simp [id_of_long_range hu1 hu2, id_of_long_range hg1 hg2, PRIV_INFO.zero, priv_getuid,
    priv_getgid, priv_getgidcount, int_of_bits32]

/-- A run of C5: target variables 1000 and 1000 for a process started by root. -/
theorem priv_init_target_baseline_witness :
    ∃ w1, priv_init true decimal_str2int ⟨some "1000", some "1000"⟩ root_start = .ok () w1 ∧
      (w1.uinfo.uid : Int) = 1000 ∧ (w1.uinfo.gid : Int) = 1000 ∧
      w1.uinfo.target_mode = 1 ∧ w1.uinfo.gids = [] ∧ w1.uinfo.gids_count = 0 ∧
      w1.uinfo.ready = 1 ∧
      priv_getuid w1 = .ok w1.uinfo.uid w1 ∧ priv_getgid w1 = .ok w1.uinfo.gid w1 ∧
      priv_getgidcount w1 = .ok 0 w1 :=
  priv_init_target_baseline decimal_str2int "1000" "1000" 1000 1000 root_start rfl
    (by decide) (by decide) (by decide) (by decide) (by decide) (by decide)

/-! ## Identity resolution: a single target variable (C6) -/

/-- C6.  In the build without setuid, for a process whose real uid is 0, when
exactly one target variable is set, whatever its value, `priv_init` ends the
process with status 255, and `ready` is 0 in the state it leaves. -/
theorem priv_init_single_target (str2int : String → Option Int) (s : String)
    (w : World) (h0 : getuid w = 0) :
    (∃ wa, priv_init true str2int ⟨some s, none⟩ w
        = .abort 255 .init_uid_without_gid wa ∧ wa.uinfo.ready = 0) ∧
    (∃ wa, priv_init true str2int ⟨none, some s⟩ w
        = .abort 255 .init_gid_without_uid wa ∧ wa.uinfo.ready = 0) := by
  have h0r : w.ruid = 0 := h0
  constructor
  · refine ⟨{ w with uinfo := PRIV_INFO.zero }, ?_, rfl⟩
    simp [priv_init, priv_init_target, getuid, h0r]
  · refine ⟨{ w with uinfo := PRIV_INFO.zero }, ?_, rfl⟩
    simp [priv_init, priv_init_target, target_value, getuid, h0r]

/-- A run of C6: only the uid variable, then only the gid variable, with a
value that would be in range. -/
theorem priv_init_single_target_witness :
    getuid root_start = 0 ∧
    ((∃ wa, priv_init true decimal_str2int ⟨some "1000", none⟩ root_start
        = .abort 255 .init_uid_without_gid wa ∧ wa.uinfo.ready = 0) ∧
     (∃ wa, priv_init true decimal_str2int ⟨none, some "1000"⟩ root_start
        = .abort 255 .init_gid_without_uid wa ∧ wa.uinfo.ready = 0)) :=
  ⟨rfl, priv_init_single_target decimal_str2int "1000" root_start rfl⟩

/-! ## Terminal drop: the setuid-style drop (C7) -/

/-- C7.  In a state after `priv_init` whose baseline uid `U` is not 0, for a
process with effective uid 0, when the user-namespace query answers non-zero:
`priv_drop_perm` returns, and then the real and the effective uid are `U`, the
real and the effective gid are the baseline gid `G`, and the stored baseline is
unchanged. -/
theorem priv_drop_perm_setuid_from_root (nosuid : Bool) (ns : Int) (o : FileOracle)
    (w : World) (hreach : Reachable nosuid w) (hns : ns ≠ 0) (hU : w.uinfo.uid ≠ 0)
    (he : w.euid = 0) :
    ∃ w', priv_drop_perm ns o w = .ok () w' ∧
      getuid w' = w.uinfo.uid ∧ w'.euid = w.uinfo.uid ∧
      getgid w' = w.uinfo.gid ∧ w'.egid = w.uinfo.gid ∧ w'.uinfo = w.uinfo := by
  have hinv := reachable_baseline_inv hreach
  obtain ⟨hu, hg⟩ := hinv.2.1 hU
  have hret : (priv_drop_perm ns o w).returned = true := by
    rw [priv_drop_perm_ns hns hinv.1, if_pos hU]
    have ht := drop_perm_setuid_root he hg
    cases hs : drop_perm_setuid w with
    | abort r s wa => rw [hs] at ht; exact absurd ht (by simp [Outcome.returned])
    | ok v w2 =>
      obtain ⟨_, hui, _, a, _, _, hs1, _⟩ := drop_perm_setuid_returned hs
      obtain ⟨x, _, _⟩ := hs1 hu
      simp [drop_perm_confirm, getgid, getuid, a, x, hui, Outcome.returned]
  cases h : priv_drop_perm ns o w with
  | abort r s wa => rw [h] at hret; exact absurd hret (by simp [Outcome.returned])
  | ok v w' =>
    obtain ⟨_, _, _, hui, _, a, b, _, d, e, _⟩ :=
      priv_drop_perm_setuid_returned hns hU (baseline_inv_real_id hinv) h
    exact ⟨w', rfl, a, b, d, e, hui⟩

/-- A run of C7: the target-mode world (real and effective ids 0, baseline 1000)
ends with real and effective ids 1000. -/
theorem priv_drop_perm_setuid_from_root_witness :
    Reachable true target_world ∧ target_world.euid = 0 ∧ target_world.uinfo.uid = 1000 ∧
    (∃ w', priv_drop_perm 1 ⟨file_ok, file_ok, file_ok⟩ target_world = .ok () w' ∧
      getuid w' = target_world.uinfo.uid ∧ w'.euid = target_world.uinfo.uid ∧
      getgid w' = target_world.uinfo.gid ∧ w'.egid = target_world.uinfo.gid ∧
      w'.uinfo = target_world.uinfo) :=
  ⟨⟨decimal_str2int, target_env, root_start, target_world, [], rfl, rfl⟩, rfl, rfl,
   priv_drop_perm_setuid_from_root true 1 ⟨file_ok, file_ok, file_ok⟩ target_world
     ⟨decimal_str2int, target_env, root_start, target_world, [], rfl, rfl⟩
     (by decide) (by decide) (by decide)⟩

/-! ## After the setuid-style drop (C8) -/

/-- C8.  After `priv_drop_perm`, called in a state after `priv_init`, has
returned through the setuid-style drop (query non-zero, baseline uid not 0),
whatever sequence of
`priv_escalate` and `priv_drop` calls is then run: the state it ends in, by
return or by abort, has an effective uid and a real uid that are not 0, a
further `priv_escalate` there ends the process, and a sequence that contains
`priv_escalate` does not return. -/
theorem no_escalation_after_setuid_drop (nosuid : Bool) (ns : Int) (o : FileOracle)
    (w w1 : World) (hreach : Reachable nosuid w) (hns : ns ≠ 0) (hU : w.uinfo.uid ≠ 0)
    (h : priv_drop_perm ns o w = .ok () w1)
    (ops : List Call) (hops : ∀ c ∈ ops, c = .escalate ∨ c = .drop) :
    (run_calls nosuid ops w1).world.euid ≠ 0 ∧
    getuid (run_calls nosuid ops w1).world ≠ 0 ∧
    (priv_escalate (run_calls nosuid ops w1).world).returned = false ∧
    (Call.escalate ∈ ops → (run_calls nosuid ops w1).returned = false) := by
  obtain ⟨_, _, _, hui, _, a, b, c, _, _, _⟩ :=
    priv_drop_perm_setuid_returned hns hU
      (baseline_inv_real_id (reachable_baseline_inv hreach)) h
  have hw1 : rootless w1 :=
    ⟨by rw [a]; exact hU, by rw [b]; exact hU, by rw [c]; exact hU, by rw [hui]; exact hU⟩
  obtain ⟨hless, hesc⟩ := rootless_run_calls nosuid ops w1 hw1 hops
  exact ⟨hless.2.1, hless.1, (priv_escalate_denied hless.1 hless.2.1 hless.2.2.1).1, hesc⟩

/-- A run of C8: after the setuid-style drop of the user world, the sequence
drop, escalate, drop ends at the escalate with effective uid 1000. -/
theorem no_escalation_after_setuid_drop_witness :
    Reachable false user_world ∧
    priv_drop_perm 1 ⟨file_ok, file_ok, file_ok⟩ user_world
      = .ok () (priv_drop_perm 1 ⟨file_ok, file_ok, file_ok⟩ user_world).world ∧
    (run_calls false [.drop, .escalate, .drop]
      (priv_drop_perm 1 ⟨file_ok, file_ok, file_ok⟩ user_world).world).world.euid = 1000 ∧
    ((run_calls false [.drop, .escalate, .drop]
        (priv_drop_perm 1 ⟨file_ok, file_ok, file_ok⟩ user_world).world).world.euid ≠ 0 ∧
     getuid (run_calls false [.drop, .escalate, .drop]
        (priv_drop_perm 1 ⟨file_ok, file_ok, file_ok⟩ user_world).world).world ≠ 0 ∧
     (priv_escalate (run_calls false [.drop, .escalate, .drop]
        (priv_drop_perm 1 ⟨file_ok, file_ok, file_ok⟩ user_world).world).world).returned
        = false ∧
     (Call.escalate ∈ [Call.drop, Call.escalate, Call.drop] →
        (run_calls false [.drop, .escalate, .drop]
          (priv_drop_perm 1 ⟨file_ok, file_ok, file_ok⟩ user_world).world).returned
          = false)) :=
  ⟨⟨decimal_str2int, empty_env, user_start, user_world, [], rfl, rfl⟩, rfl, rfl,
   no_escalation_after_setuid_drop false 1 ⟨file_ok, file_ok, file_ok⟩ user_world _
     ⟨decimal_str2int, empty_env, user_start, user_world, [], rfl, rfl⟩
     (by decide) (by decide) rfl [.drop, .escalate, .drop] (by decide)⟩

/-! ## The toggle round trip (C9) -/

/-- C9.  In a state after `priv_init` whose real uid is not 0 and in which
`priv_escalate` returns, for every `N ≥ 1`: running `priv_escalate` then
`priv_drop` `N` times returns, with the effective uid equal to the baseline uid
and the effective gid equal to the baseline gid, the baseline being the one
before; and `priv_escalate` alone leaves both effective ids at 0. -/
theorem toggle_cycles_restore (nosuid : Bool) (w : World) (hreach : Reachable nosuid w)
    (h0 : getuid w ≠ 0) (hperm : (priv_escalate w).returned = true)
    (N : Nat) (hN : 1 ≤ N) :
    (∃ w', toggle_cycles nosuid N w = .ok () w' ∧
      w'.euid = w'.uinfo.uid ∧ w'.egid = w'.uinfo.gid ∧ w'.uinfo = w.uinfo) ∧
    (∃ w1, priv_escalate w = .ok () w1 ∧ w1.euid = 0 ∧ w1.egid = 0) := by
  obtain ⟨hr, hv, hi⟩ := reachable_baseline_inv hreach
  obtain ⟨hu, hg, hes⟩ := hi h0
  have hne : w.uinfo.uid ≠ 0 := by rw [hu]; exact h0
  obtain ⟨nu, ng⟩ := hv hne
  have hs : w.suid = 0 := by
    cases he : priv_escalate w with
    | abort r s wa => rw [he] at hperm; exact absurd hperm (by simp [Outcome.returned])
    | ok v w1 =>
      rcases priv_escalate_returned he with ⟨a, _⟩ | ⟨_, a | a, _⟩
      · exact absurd a h0
      · exact hes a
      · exact a
  have hw : toggle_ready w := ⟨hr, h0, hu, hg, nu, ng, hs⟩
  obtain ⟨w', h1, _, h3, h4, h5⟩ := toggle_cycles_ready nosuid N w hw hN
  obtain ⟨w1, _, he, e1, e2, _⟩ := toggle_round nosuid hw
  exact ⟨⟨w', h1, h3, h4, h5⟩, ⟨w1, he, e1, e2⟩⟩

/-- A run of C9: three rounds from the world of the setuid binary started by
user 1000 of group 100. -/
theorem toggle_cycles_restore_witness :
    Reachable false user_world ∧ getuid user_world ≠ 0 ∧
    (toggle_cycles false 3 user_world).world.euid = 1000 ∧
    (toggle_cycles false 3 user_world).world.egid = 100 ∧
    ((∃ w', toggle_cycles false 3 user_world = .ok () w' ∧
        w'.euid = w'.uinfo.uid ∧ w'.egid = w'.uinfo.gid ∧ w'.uinfo = user_world.uinfo) ∧
     (∃ w1, priv_escalate user_world = .ok () w1 ∧ w1.euid = 0 ∧ w1.egid = 0)) :=
  ⟨⟨decimal_str2int, empty_env, user_start, user_world, [], rfl, rfl⟩, by decide, rfl, rfl,
   toggle_cycles_restore false user_world
     ⟨decimal_str2int, empty_env, user_start, user_world, [], rfl, rfl⟩
     (by decide) (by decide) 3 (by decide)⟩

/-! ## Identity resolution: a process that is not root (C10) -/

/-- C10.  For a process whose real uid is not 0, when `priv_init` returns:
`priv_getuid` and `priv_getgid` return the real uid and gid of the process, and
the effective uid and gid are equal to them; the real ids are those the process
started with. -/
theorem priv_init_nonroot_identity (nosuid : Bool) (str2int : String → Option Int)
    (env : Environ) (w0 w : World) (h0 : getuid w0 ≠ 0)
    (h : priv_init nosuid str2int env w0 = .ok () w) :
    priv_getuid w = .ok (getuid w) w ∧ priv_getgid w = .ok (getgid w) w ∧
    w.euid = getuid w ∧ w.egid = getgid w ∧
    getuid w = getuid w0 ∧ getgid w = getgid w0 := by
  obtain ⟨hr, hu, hg, _, _, _, hru, hrg, _, _, heu, heg, _, _⟩ :=
    priv_init_returned_nonroot h0 h
  have hr0 : w.uinfo.ready ≠ 0 := by omega
  refine ⟨?_, ?_, ?_, ?_, hru, hrg⟩
  · rw [priv_getuid_ready hr0, hu, getuid, hru]
  · rw [priv_getgid_ready hr0, hg, getgid, hrg]
  · rw [heu, getuid, hru]
  · rw [heg, getgid, hrg]

/-- A run of C10: the setuid binary started by user 1000 of group 100. -/
theorem priv_init_nonroot_identity_witness :
    getuid user_start ≠ 0 ∧
    priv_init false decimal_str2int empty_env user_start = .ok () user_world ∧
    user_world.euid = 1000 ∧ user_world.egid = 100 ∧
    (priv_getuid user_world = .ok (getuid user_world) user_world ∧
     priv_getgid user_world = .ok (getgid user_world) user_world ∧
     user_world.euid = getuid user_world ∧ user_world.egid = getgid user_world ∧
     getuid user_world = getuid user_start ∧ getgid user_world = getgid user_start) :=
  ⟨by decide, rfl, rfl, rfl,
    priv_init_nonroot_identity false decimal_str2int empty_env user_start user_world
      (by decide) rfl⟩

/-! ## The stored baseline is a frame of every later call (C11) -/

/-- C11.  From a state after `priv_init`, every sequence of `priv_escalate`,
`priv_drop`, `priv_userns_init` and `priv_drop_perm` calls that returns leaves
the stored baseline uid, gid, group list and group count as they were, and
`priv_getuid`, `priv_getgid`, `priv_getgids` and `priv_getgidcount` return the
same values after the sequence as before it. -/
theorem baseline_frame (nosuid : Bool) (calls : List Call) (w w' : World)
    (hreach : Reachable nosuid w) (h : run_calls nosuid calls w = .ok () w') :
    w'.uinfo.uid = w.uinfo.uid ∧ w'.uinfo.gid = w.uinfo.gid ∧
    w'.uinfo.gids = w.uinfo.gids ∧ w'.uinfo.gids_count = w.uinfo.gids_count ∧
    (priv_getuid w = .ok w.uinfo.uid w ∧ priv_getuid w' = .ok w.uinfo.uid w') ∧
    (priv_getgid w = .ok w.uinfo.gid w ∧ priv_getgid w' = .ok w.uinfo.gid w') ∧
    (priv_getgids w = .ok w.uinfo.gids w ∧ priv_getgids w' = .ok w.uinfo.gids w') ∧
    (priv_getgidcount w = .ok (int_of_bits32 w.uinfo.gids_count) w ∧
     priv_getgidcount w' = .ok (int_of_bits32 w.uinfo.gids_count) w') := by
  have hu := run_calls_uinfo calls w w' h
  have hr : w.uinfo.ready = 1 := (reachable_baseline_inv hreach).1
  have hr0 : w.uinfo.ready ≠ 0 := by omega
  have hr0' : w'.uinfo.ready ≠ 0 := by rw [hu]; exact hr0
  refine ⟨by rw [hu], by rw [hu], by rw [hu], by rw [hu], ⟨?_, ?_⟩, ⟨?_, ?_⟩, ⟨?_, ?_⟩,
    ⟨?_, ?_⟩⟩
  · exact priv_getuid_ready hr0
  · rw [priv_getuid_ready hr0', hu]
  · exact priv_getgid_ready hr0
  · rw [priv_getgid_ready hr0', hu]
  · simp [priv_getgids, hr0]
  · simp [priv_getgids, hu, hr0]
  · simp [priv_getgidcount, hr0]
  · simp [priv_getgidcount, hu, hr0]

/-- A run of C11: two toggle rounds, the namespace bootstrap and the terminal
drop from the world of the setuid binary started by user 1000. -/
theorem baseline_frame_witness :
    Reachable false user_world ∧
    (run_calls false
      [.escalate, .drop, .escalate, .userns_init ⟨file_ok, file_ok, file_ok⟩, .drop,
       .drop_perm 1 ⟨file_ok, file_ok, file_ok⟩] user_world).returned = true ∧
    (priv_getuid user_world = .ok 1000 user_world ∧
     priv_getgids user_world = .ok [4, 27] user_world) ∧
    ((run_calls false
      [.escalate, .drop, .escalate, .userns_init ⟨file_ok, file_ok, file_ok⟩, .drop,
       .drop_perm 1 ⟨file_ok, file_ok, file_ok⟩] user_world).world.uinfo.uid
        = user_world.uinfo.uid) :=
  ⟨⟨decimal_str2int, empty_env, user_start, user_world, [], rfl, rfl⟩, rfl,
   ⟨rfl, rfl⟩,
   (baseline_frame false
      [.escalate, .drop, .escalate, .userns_init ⟨file_ok, file_ok, file_ok⟩, .drop,
       .drop_perm 1 ⟨file_ok, file_ok, file_ok⟩] user_world _
      ⟨decimal_str2int, empty_env, user_start, user_world, [], rfl, rfl⟩ rfl).1⟩

/-! ## The three records of the two mappers (C12) -/

/-- C12.  In a ready state with baseline uid `U` and gid `G` below `2^31` and
pid `P`, when every open and every close succeeds: `priv_userns_init` returns
after exactly the open, write and close of `/proc/P/setgroups` with `deny`, of
`/proc/P/gid_map` with `0 G 1` and of `/proc/P/uid_map` with `0 U 1`, in that
order; and `priv_drop_perm`, when the query answers 0, returns after the same
three files in the same order with `deny`, `G 0 1` and `U 0 1` (`U` and `G` in
decimal, each text ended by a newline). -/
theorem control_file_records (o : FileOracle) (w : World) (U G P : Nat)
    (hr : w.uinfo.ready = 1)
    (hu : w.uinfo.uid = U) (hg : w.uinfo.gid = G) (hp : getpid w = (P : Int))
    (hU : U < 2147483648) (hG : G < 2147483648)
    (h1 : o.setgroups.open_ok = true) (h2 : o.gid_map.open_ok = true)
    (h3 : o.uid_map.open_ok = true) (c1 : o.setgroups.close_ok = true)
    (c2 : o.gid_map.close_ok = true) (c3 : o.uid_map.close_ok = true) :
    (priv_userns_init o w = .ok ()
      { w with trace := (w.trace ++
          spec_records P ("0 " ++ toString G ++ " 1\n") ("0 " ++ toString U ++ " 1\n") o) } ∧
     written_records
        (spec_records P ("0 " ++ toString G ++ " 1\n") ("0 " ++ toString U ++ " 1\n") o)
       = [("/proc/" ++ toString P ++ "/setgroups", "deny\n"),
          ("/proc/" ++ toString P ++ "/gid_map", "0 " ++ toString G ++ " 1\n"),
          ("/proc/" ++ toString P ++ "/uid_map", "0 " ++ toString U ++ " 1\n")]) ∧
    (priv_drop_perm 0 o w = .ok ()
      { w with trace := (w.trace ++
          spec_records P (toString G ++ " 0 1\n") (toString U ++ " 0 1\n") o) } ∧
     written_records
        (spec_records P (toString G ++ " 0 1\n") (toString U ++ " 0 1\n") o)
       = [("/proc/" ++ toString P ++ "/setgroups", "deny\n"),
          ("/proc/" ++ toString P ++ "/gid_map", toString G ++ " 0 1\n"),
          ("/proc/" ++ toString P ++ "/uid_map", toString U ++ " 0 1\n")]) := by
  have hr0 : w.uinfo.ready ≠ 0 := by omega
  have hp' : w.pid = (P : Int) := hp
  refine ⟨⟨?_, rfl⟩, ⟨?_, rfl⟩⟩
  · rw [priv_userns_init_written hr0 h1 h2 h3 c1 c2 c3,
      userns_events_spec hu hg hp' hU hG c1 c2 c3]
  · have hpd : priv_drop_perm 0 o w = drop_perm_maps o w := by
      simp [priv_drop_perm, hr]
    rw [hpd, drop_perm_maps_opened hr0 h1 h2 h3,
      drop_perm_events_spec hu hg hp' hU hG c1 c2 c3]

/-- A run of C12 on the world of user 1000, group 100, pid 4242. -/
theorem control_file_records_witness :
    user_world.uinfo.ready = 1 ∧ user_world.uinfo.uid = 1000 ∧ user_world.uinfo.gid = 100 ∧
    getpid user_world = 4242 ∧
    written_records (priv_userns_init ⟨file_ok, file_ok, file_ok⟩ user_world).world.trace
      = [("/proc/4242/setgroups", "deny\n"), ("/proc/4242/gid_map", "0 100 1\n"),
         ("/proc/4242/uid_map", "0 1000 1\n")] ∧
    written_records (priv_drop_perm 0 ⟨file_ok, file_ok, file_ok⟩ user_world).world.trace
      = [("/proc/4242/setgroups", "deny\n"), ("/proc/4242/gid_map", "100 0 1\n"),
         ("/proc/4242/uid_map", "1000 0 1\n")] ∧
    priv_userns_init ⟨file_ok, file_ok, file_ok⟩ user_world = .ok ()
      { user_world with trace := (user_world.trace ++
          spec_records 4242 ("0 " ++ toString 100 ++ " 1\n")
            ("0 " ++ toString 1000 ++ " 1\n") ⟨file_ok, file_ok, file_ok⟩) } :=
  ⟨rfl, rfl, rfl, rfl, by decide, by decide,
   (control_file_records ⟨file_ok, file_ok, file_ok⟩ user_world 1000 100 4242
      rfl rfl rfl rfl (by decide) (by decide) rfl rfl rfl rfl rfl rfl).1.1⟩

/-! ## The namespace bootstrap stops at the first failure (C13) -/

/-- C13, as amended.  In a ready state, `priv_userns_init` returns exactly when
the three opens and the three closes succeed, and ends the process otherwise;
the result of `fprintf` plays no part.  When setgroups fails to open or to
close, it is the only file given to `fopen`; when gid_map fails, uid_map is not
given to `fopen`; and the texts are written in the order setgroups, gid_map,
uid_map, each to a file that was opened after every earlier file was closed
without error.  Each failure ends the process with status 255, at the open or
the close that failed, with that operation as the last event. -/
theorem userns_init_fail_stop (o : FileOracle) (w : World) (hr : w.uinfo.ready = 1) :
    ((priv_userns_init o w).returned = true ↔
      (o.setgroups.open_ok = true ∧ o.setgroups.close_ok = true ∧
       o.gid_map.open_ok = true ∧ o.gid_map.close_ok = true ∧
       o.uid_map.open_ok = true ∧ o.uid_map.close_ok = true)) ∧
    (¬ (o.setgroups.open_ok = true ∧ o.setgroups.close_ok = true) →
      fopen_calls (new_events w (priv_userns_init o w).world)
        = [proc_path w.pid "setgroups"] ∧
      written_records (new_events w (priv_userns_init o w).world)
        = if o.setgroups.open_ok then [(proc_path w.pid "setgroups", "deny\n")] else []) ∧
    (o.setgroups.open_ok = true ∧ o.setgroups.close_ok = true →
      ¬ (o.gid_map.open_ok = true ∧ o.gid_map.close_ok = true) →
      fopen_calls (new_events w (priv_userns_init o w).world)
        = [proc_path w.pid "setgroups", proc_path w.pid "gid_map"] ∧
      written_records (new_events w (priv_userns_init o w).world)
        = (proc_path w.pid "setgroups", "deny\n") ::
          (if o.gid_map.open_ok
           then [(proc_path w.pid "gid_map", "0 " ++ fmt_i w.uinfo.gid ++ " 1\n")] else [])) ∧
    (o.setgroups.open_ok = true ∧ o.setgroups.close_ok = true →
      o.gid_map.open_ok = true ∧ o.gid_map.close_ok = true →
      fopen_calls (new_events w (priv_userns_init o w).world)
        = [proc_path w.pid "setgroups", proc_path w.pid "gid_map",
           proc_path w.pid "uid_map"] ∧
      written_records (new_events w (priv_userns_init o w).world)
        = (proc_path w.pid "setgroups", "deny\n") ::
          (proc_path w.pid "gid_map", "0 " ++ fmt_i w.uinfo.gid ++ " 1\n") ::
          (if o.uid_map.open_ok
           then [(proc_path w.pid "uid_map", "0 " ++ fmt_i w.uinfo.uid ++ " 1\n")] else [])) ∧
    (o.setgroups.open_ok = false →
      priv_userns_init o w = .abort 255 .userns_setgroups_open
        { w with trace := w.trace ++ [Event.fopen (proc_path w.pid "setgroups") false] }) ∧
    (o.setgroups.open_ok = true → o.setgroups.close_ok = false →
      priv_userns_init o w = .abort 255 .userns_setgroups_close
        { w with trace := w.trace ++
            control_events (proc_path w.pid "setgroups") "deny\n" o.setgroups }) ∧
    (o.setgroups.open_ok = true → o.setgroups.close_ok = true →
      o.gid_map.open_ok = false →
      priv_userns_init o w = .abort 255 .userns_gid_map_open
        { w with trace := w.trace ++
            (control_events (proc_path w.pid "setgroups") "deny\n" o.setgroups ++
             [Event.fopen (proc_path w.pid "gid_map") false]) }) ∧
    (o.setgroups.open_ok = true → o.setgroups.close_ok = true →
      o.gid_map.open_ok = true → o.gid_map.close_ok = false →
      priv_userns_init o w = .abort 255 .userns_gid_map_close
        { w with trace := w.trace ++
            (control_events (proc_path w.pid "setgroups") "deny\n" o.setgroups ++
             control_events (proc_path w.pid "gid_map")
               ("0 " ++ fmt_i w.uinfo.gid ++ " 1\n") o.gid_map) }) ∧
    (o.setgroups.open_ok = true → o.setgroups.close_ok = true →
      o.gid_map.open_ok = true → o.gid_map.close_ok = true →
      o.uid_map.open_ok = false →
      priv_userns_init o w = .abort 255 .userns_uid_map_open
        { w with trace := w.trace ++
            (control_events (proc_path w.pid "setgroups") "deny\n" o.setgroups ++
             control_events (proc_path w.pid "gid_map")
               ("0 " ++ fmt_i w.uinfo.gid ++ " 1\n") o.gid_map ++
             [Event.fopen (proc_path w.pid "uid_map") false]) }) ∧
    (o.setgroups.open_ok = true → o.setgroups.close_ok = true →
      o.gid_map.open_ok = true → o.gid_map.close_ok = true →
      o.uid_map.open_ok = true → o.uid_map.close_ok = false →
      priv_userns_init o w = .abort 255 .userns_uid_map_close
        { w with trace := w.trace ++ userns_events o w }) ∧
    (o.setgroups.open_ok = true → o.setgroups.close_ok = true →
      o.gid_map.open_ok = true → o.gid_map.close_ok = true →
      o.uid_map.open_ok = true → o.uid_map.close_ok = true →
      priv_userns_init o w = .ok () { w with trace := w.trace ++ userns_events o w }) := by
  have hr0 : w.uinfo.ready ≠ 0 := by omega
  refine ⟨?_, ?_, ?_, ?_, fun h1 => userns_setgroups_refused hr0 h1,
    fun h1 c1 => userns_setgroups_unclosed hr0 h1 c1,
    fun h1 c1 h2 => userns_gid_map_refused hr0 h1 c1 h2,
    fun h1 c1 h2 c2 => userns_gid_map_unclosed hr0 h1 c1 h2 c2,
    fun h1 c1 h2 c2 h3 => userns_uid_map_refused hr0 h1 c1 h2 c2 h3,
    fun h1 c1 h2 c2 h3 c3 => userns_uid_map_unclosed hr0 h1 c1 h2 c2 h3 c3,
    fun h1 c1 h2 c2 h3 c3 => priv_userns_init_written hr0 h1 h2 h3 c1 c2 c3⟩
  all_goals
    cases h1 : o.setgroups.open_ok
    · rw [userns_setgroups_refused hr0 h1]
      simp [Outcome.returned, Outcome.world, new_events_append, fopen_calls, written_records]
    · cases c1 : o.setgroups.close_ok
      · rw [userns_setgroups_unclosed hr0 h1 c1]
        simp [Outcome.returned, Outcome.world, new_events_append, fopen_calls,
          written_records, control_events]
      · cases h2 : o.gid_map.open_ok
        · rw [userns_gid_map_refused hr0 h1 c1 h2]
          simp [Outcome.returned, Outcome.world, new_events_append, fopen_calls,
            written_records, control_events]
        · cases c2 : o.gid_map.close_ok
          · rw [userns_gid_map_unclosed hr0 h1 c1 h2 c2]
            simp [Outcome.returned, Outcome.world, new_events_append, fopen_calls,
              written_records, control_events]
          · cases h3 : o.uid_map.open_ok
            · rw [userns_uid_map_refused hr0 h1 c1 h2 c2 h3]
              simp [Outcome.returned, Outcome.world, new_events_append, fopen_calls,
                written_records, control_events]
            · cases c3 : o.uid_map.close_ok
              · rw [userns_uid_map_unclosed hr0 h1 c1 h2 c2 h3 c3]
                simp [Outcome.returned, Outcome.world, new_events_append, fopen_calls,
                  written_records, control_events, userns_events]
              · rw [priv_userns_init_written hr0 h1 h2 h3 c1 c2 c3]
                simp [Outcome.returned, Outcome.world, new_events_append, fopen_calls,
                  written_records, control_events, userns_events]

/-- A run of C13 as amended: gid_map opens but its close fails; the process is
ended with status 255 at that close, uid_map is not opened, and two texts were
written. -/
theorem userns_init_fail_stop_witness :
    user_world.uinfo.ready = 1 ∧
    (priv_userns_init ⟨file_ok, file_close_fails, file_ok⟩ user_world).returned = false ∧
    (fopen_calls (new_events user_world
        (priv_userns_init ⟨file_ok, file_close_fails, file_ok⟩ user_world).world)
        = [proc_path user_world.pid "setgroups", proc_path user_world.pid "gid_map"] ∧
     written_records (new_events user_world
        (priv_userns_init ⟨file_ok, file_close_fails, file_ok⟩ user_world).world)
        = (proc_path user_world.pid "setgroups", "deny\n") ::
          (if file_close_fails.open_ok
           then [(proc_path user_world.pid "gid_map",
                  "0 " ++ fmt_i user_world.uinfo.gid ++ " 1\n")] else [])) ∧
    priv_userns_init ⟨file_ok, file_close_fails, file_ok⟩ user_world
      = .abort 255 .userns_gid_map_close
        { user_world with trace := user_world.trace ++
            (control_events (proc_path user_world.pid "setgroups") "deny\n" file_ok ++
             control_events (proc_path user_world.pid "gid_map")
               ("0 " ++ fmt_i user_world.uinfo.gid ++ " 1\n") file_close_fails) } :=
  ⟨rfl, by decide,
   (userns_init_fail_stop ⟨file_ok, file_close_fails, file_ok⟩ user_world rfl).2.2.1
     (by decide) (by decide),
   (userns_init_fail_stop ⟨file_ok, file_close_fails, file_ok⟩ user_world
     rfl).2.2.2.2.2.2.2.1 rfl rfl rfl rfl⟩

/-- C13 fails as stated.  In a ready state, when the write of `deny` to
setgroups fails while its close succeeds, `priv_userns_init` does not end the
process: it goes on to write gid_map and uid_map and returns. -/
theorem userns_init_ignores_fprintf :
    user_world.uinfo.ready = 1 ∧
    (priv_userns_init ⟨⟨true, false, true⟩, file_ok, file_ok⟩ user_world).returned = true ∧
    Event.fprintf "/proc/4242/setgroups" "deny\n" false ∈
      (priv_userns_init ⟨⟨true, false, true⟩, file_ok, file_ok⟩ user_world).world.trace ∧
    written_records (new_events user_world
      (priv_userns_init ⟨⟨true, false, true⟩, file_ok, file_ok⟩ user_world).world)
      = [("/proc/4242/setgroups", "deny\n"), ("/proc/4242/gid_map", "0 100 1\n"),
         ("/proc/4242/uid_map", "0 1000 1\n")] := by
  decide

/-! ## Target mode (C14) -/

/-- C14.  In every state after `priv_init` (either build, any startup, any
target variables, any sequence of the other operations that returned), a
`target_mode` that is set comes with a supplementary group count of 0, an empty
group list, and a baseline uid and gid in `[500, 65534]`. -/
theorem target_mode_invariant (nosuid : Bool) (w : World) (hreach : Reachable nosuid w)
    (ht : w.uinfo.target_mode ≠ 0) :
    w.uinfo.gids_count = 0 ∧ w.uinfo.gids = [] ∧
    500 ≤ w.uinfo.uid ∧ w.uinfo.uid ≤ 65534 ∧
    500 ≤ w.uinfo.gid ∧ w.uinfo.gid ≤ 65534 ∧
    priv_getgidcount w = .ok 0 w := by
  obtain ⟨_, _, hm⟩ := reachable_uinfo_facts hreach
  have hr : w.uinfo.ready = 1 := (reachable_baseline_inv hreach).1
  rcases hm with h0 | ⟨_, _, a1, a2, b1, b2, g, c⟩
  · exact absurd h0 ht
  · refine ⟨c, g, a1, a2, b1, b2, ?_⟩
    simp [priv_getgidcount, hr, c, int_of_bits32]

/-- A run of C14: the target-mode world after an escalate and the terminal
drop. -/
theorem target_mode_invariant_witness :
    Reachable true
      (run_calls true [.escalate, .drop_perm 1 ⟨file_ok, file_ok, file_ok⟩]
        target_world).world ∧
    (run_calls true [.escalate, .drop_perm 1 ⟨file_ok, file_ok, file_ok⟩]
        target_world).world.uinfo.target_mode = 1 ∧
    (run_calls true [.escalate, .drop_perm 1 ⟨file_ok, file_ok, file_ok⟩]
        target_world).world.uinfo.uid = 1000 ∧
    (run_calls true [.escalate, .drop_perm 1 ⟨file_ok, file_ok, file_ok⟩]
        target_world).world.uinfo.gids_count = 0 :=
  ⟨⟨decimal_str2int, target_env, root_start, target_world,
      [.escalate, .drop_perm 1 ⟨file_ok, file_ok, file_ok⟩], rfl, rfl⟩,
   rfl, rfl,
   (target_mode_invariant true _
      ⟨decimal_str2int, target_env, root_start, target_world,
        [.escalate, .drop_perm 1 ⟨file_ok, file_ok, file_ok⟩], rfl, rfl⟩
      (by decide)).1⟩

/-! ## The effective ids after `priv_init` (C15) -/

/-- C16, as amended.  In a ready state, when the user-namespace query answers
non-zero, the branch is chosen by the stored baseline uid (`priv_getuid()`),
not by the effective uid.  With a baseline uid other than 0 the setuid-style
drop is run: the new events are the reset of the groups (unless
`userns_ready`), then `setgid` with the baseline gid, and, when the function
returns, `setregid` and `setreuid` with the baseline ids.  With a baseline uid
of 0 no call is made and the world is unchanged.  So a call is made exactly
when the baseline uid is not 0. -/
theorem setuid_drop_selection (ns : Int) (o : FileOracle) (w : World)
    (hr : w.uinfo.ready = 1) (hns : ns ≠ 0) :
    (w.uinfo.uid ≠ 0 →
      ∃ (es rest : List Event) (r : Int),
        new_events w (priv_drop_perm ns o w).world
          = es ++ Event.setgid w.uinfo.gid r :: rest ∧
        (w.uinfo.userns_ready = 0 →
          ∃ r1, es = [Event.setgroups w.uinfo.gids_count w.uinfo.gids r1]) ∧
        (w.uinfo.userns_ready ≠ 0 → es = []) ∧
        ((priv_drop_perm ns o w).returned = true →
          r = 0 ∧ rest = [Event.setregid w.uinfo.gid w.uinfo.gid 0,
                          Event.setreuid w.uinfo.uid w.uinfo.uid 0])) ∧
    (w.uinfo.uid = 0 → (priv_drop_perm ns o w).world = w) ∧
    (new_events w (priv_drop_perm ns o w).world = [] ↔ w.uinfo.uid = 0) := by
  have hpos : w.uinfo.uid ≠ 0 →
      ∃ (es rest : List Event) (r : Int),
        new_events w (priv_drop_perm ns o w).world
          = es ++ Event.setgid w.uinfo.gid r :: rest ∧
        (w.uinfo.userns_ready = 0 →
          ∃ r1, es = [Event.setgroups w.uinfo.gids_count w.uinfo.gids r1]) ∧
        (w.uinfo.userns_ready ≠ 0 → es = []) ∧
        ((priv_drop_perm ns o w).returned = true →
          r = 0 ∧ rest = [Event.setregid w.uinfo.gid w.uinfo.gid 0,
                          Event.setreuid w.uinfo.uid w.uinfo.uid 0]) := by
    intro hU
    obtain ⟨hw, hret⟩ := priv_drop_perm_world_setuid (o := o) hns hr hU
    obtain ⟨es, rest, r, htr, a, b, c⟩ := drop_perm_setuid_trace w
    refine ⟨es, rest, r, ?_, a, b, fun h => c (hret h)⟩
    rw [hw]
    exact new_events_of_trace htr
  have hzero : w.uinfo.uid = 0 → (priv_drop_perm ns o w).world = w :=
    fun hU => priv_drop_perm_world_skip hns hr hU
  refine ⟨hpos, hzero, ?_⟩
  constructor
  · intro hnew
    by_contra hU
    obtain ⟨es, rest, r, he, _⟩ := hpos hU
    rw [hnew] at he
    exact absurd he.symm (by simp)
  · intro hU
    rw [hzero hU]
    simp [new_events]

/-- A run of C16 as amended: from the world of user 1000 (baseline uid 1000),
the new events are the four calls of the setuid-style drop. -/
theorem setuid_drop_selection_witness :
    user_world.uinfo.ready = 1 ∧ user_world.uinfo.uid = 1000 ∧
    new_events user_world
      (priv_drop_perm 1 ⟨file_ok, file_ok, file_ok⟩ user_world).world
      = [Event.setgroups 2 [4, 27] (-1), Event.setgid 100 0, Event.setregid 100 100 0,
         Event.setreuid 1000 1000 0] ∧
    (new_events user_world
      (priv_drop_perm 1 ⟨file_ok, file_ok, file_ok⟩ user_world).world = [] ↔
      user_world.uinfo.uid = 0) :=
  ⟨rfl, rfl, by decide,
   (setuid_drop_selection 1 ⟨file_ok, file_ok, file_ok⟩ user_world rfl (by decide)).2.2⟩

/-- C16 fails as stated.  In the target-mode world the effective uid is 0, yet
`priv_drop_perm` with a non-zero answer of the query runs the setuid-style
drop, because the baseline uid is 1000. -/
theorem setuid_drop_with_effective_root :
    target_world.uinfo.ready = 1 ∧ target_world.euid = 0 ∧
    target_world.uinfo.uid = 1000 ∧
    new_events target_world
      (priv_drop_perm 1 ⟨file_ok, file_ok, file_ok⟩ target_world).world
      = [Event.setgroups 0 [] 0, Event.setgid 1000 0, Event.setregid 1000 1000 0,
         Event.setreuid 1000 1000 0] := by
  decide

/-! ## The real identity after `priv_init` (C17) -/

/-- C17.  In every state after `priv_init`, the real uid is 0 or the real uid
and gid are the stored baseline uid and gid.  Hence, for a real uid other than
0, the two tests at the end of `priv_drop` pass in every world that has these
real ids and this `uinfo`, whatever its effective ids; `priv_drop` can end the
process only at `setegid` or `seteuid`; and, both calls being permitted for the
real ids, it returns. -/
theorem real_identity_invariant (nosuid : Bool) (w : World)
    (hreach : Reachable nosuid w) :
    (getuid w = 0 ∨ (getuid w = w.uinfo.uid ∧ getgid w = w.uinfo.gid)) ∧
    (getuid w ≠ 0 → ∀ x : World,
      getuid x = getuid w → getgid x = getgid w → x.uinfo = w.uinfo →
      drop_confirm_gid nosuid x = none ∧ drop_confirm_uid nosuid x = none) ∧
    (∀ r site wa, priv_drop nosuid w = .abort r site wa →
      site = .drop_setegid ∨ site = .drop_seteuid) ∧
    (priv_drop nosuid w).returned = true := by
  have hinv := reachable_baseline_inv hreach
  have hret := priv_drop_returns_of_inv nosuid hinv
  refine ⟨?_, ?_, ?_, hret⟩
  · by_cases h0 : w.ruid = 0
    · exact Or.inl h0
    · obtain ⟨hu, hg, _⟩ := hinv.2.2 h0
      exact Or.inr ⟨hu.symm, hg.symm⟩
  · intro h0 x a b c
    obtain ⟨hu, hg, _⟩ := hinv.2.2 h0
    have a' : x.ruid = w.ruid := a
    have b' : x.rgid = w.rgid := b
    exact drop_confirm_real_identity nosuid (by rw [c, a']; exact hu)
      (by rw [c, b']; exact hg)
  · intro r site wa h
    rw [h] at hret
    exact absurd hret (by simp [Outcome.returned])

/-- A run of C17: the world of user 1000 after an escalate (effective ids 0,
real ids 1000 and 100). -/
theorem real_identity_invariant_witness :
    Reachable false (run_calls false [.escalate] user_world).world ∧
    (run_calls false [.escalate] user_world).world.euid = 0 ∧
    getuid (run_calls false [.escalate] user_world).world = 1000 ∧
    (priv_drop false (run_calls false [.escalate] user_world).world).returned = true :=
  ⟨⟨decimal_str2int, empty_env, user_start, user_world, [.escalate], rfl, rfl⟩, rfl, rfl,
   (real_identity_invariant false _
      ⟨decimal_str2int, empty_env, user_start, user_world, [.escalate], rfl, rfl⟩).2.2.2⟩

/-! ## The id in a map record (C18) -/

/-- C18.  The id that `priv_userns_init` and the first branch of
`priv_drop_perm` put in the gid_map and uid_map records is the baseline id
printed by `%i`, that is, its 32 bits read as a signed integer: the written
texts are `0 <fmt_i id> 1` and `<fmt_i id> 0 1`; for `v < 2^31` the text of `v`
is decimal `v`; for `2^31 ≤ v < 2^32` it is the negative number `v - 2^32`,
a minus sign followed by decimal `2^32 - v`; so, for a 32-bit id, the number
printed is the id exactly when the id is below `2^31`. -/
theorem map_record_signed (o : FileOracle) (w : World) (v : Nat)
    (hr : w.uinfo.ready = 1)
    (h1 : o.setgroups.open_ok = true) (h2 : o.gid_map.open_ok = true)
    (h3 : o.uid_map.open_ok = true) (c1 : o.setgroups.close_ok = true)
    (c2 : o.gid_map.close_ok = true) (c3 : o.uid_map.close_ok = true) :
    written_records (new_events w (priv_userns_init o w).world)
      = [(proc_path w.pid "setgroups", "deny\n"),
         (proc_path w.pid "gid_map", "0 " ++ toString (int_of_bits32 w.uinfo.gid) ++ " 1\n"),
         (proc_path w.pid "uid_map", "0 " ++ toString (int_of_bits32 w.uinfo.uid) ++ " 1\n")] ∧
    written_records (new_events w (priv_drop_perm 0 o w).world)
      = [(proc_path w.pid "setgroups", "deny\n"),
         (proc_path w.pid "gid_map", toString (int_of_bits32 w.uinfo.gid) ++ " 0 1\n"),
         (proc_path w.pid "uid_map", toString (int_of_bits32 w.uinfo.uid) ++ " 0 1\n")] ∧
    (v < 2147483648 →
      int_of_bits32 v = (v : Int) ∧ toString (int_of_bits32 v) = toString v) ∧
    (2147483648 ≤ v → v < 4294967296 →
      int_of_bits32 v = (v : Int) - 4294967296 ∧ int_of_bits32 v < 0 ∧
      toString (int_of_bits32 v) = "-" ++ toString (4294967296 - v)) ∧
    (v < 4294967296 → (int_of_bits32 v = (v : Int) ↔ v < 2147483648)) := by
  have hr0 : w.uinfo.ready ≠ 0 := by omega
  have hpd : priv_drop_perm 0 o w = drop_perm_maps o w := by
    simp [priv_drop_perm, hr]
  refine ⟨?_, ?_, ?_, ?_, ?_⟩
  · rw [priv_userns_init_written hr0 h1 h2 h3 c1 c2 c3]
    simp [Outcome.world, new_events_append, written_records, control_events, userns_events,
      fmt_i]
  · rw [hpd, drop_perm_maps_opened hr0 h1 h2 h3]
    simp [Outcome.world, new_events_append, written_records, control_events,
      drop_perm_events, fmt_i]
  · intro hv
    have hm : v % 4294967296 = v := Nat.mod_eq_of_lt (by omega)
    have e : int_of_bits32 v = (v : Int) := by
      unfold int_of_bits32
      rw [hm, if_pos hv]
    exact ⟨e, by rw [e]; rfl⟩
  · intro hv1 hv2
    have hm : v % 4294967296 = v := Nat.mod_eq_of_lt hv2
    have e : int_of_bits32 v = (v : Int) - 4294967296 := by
      unfold int_of_bits32
      rw [hm, if_neg (by omega)]
    have e2 : (v : Int) - 4294967296 = Int.negSucc (4294967296 - v - 1) := by
      rw [Int.negSucc_eq]
      omega
    refine ⟨e, by rw [e]; omega, ?_⟩
    rw [e, e2]
    have e3 : 4294967296 - v = (4294967296 - v - 1) + 1 := by omega
    rw [e3]
    rfl
  · intro hv
    have hm : v % 4294967296 = v := Nat.mod_eq_of_lt hv
    unfold int_of_bits32
    rw [hm]
    split_ifs with h
    · simp [h]
    · constructor
      · intro he
        omega
      · intro hlt
        exact absurd hlt h

/-- A run of C18: a user with uid 3000000000 and gid 2147483648; the records
carry the negative numbers -1294967296 and -2147483648. -/
theorem map_record_signed_witness :
    priv_init false decimal_str2int empty_env big_id_start = .ok () big_id_world ∧
    big_id_world.uinfo.uid = 3000000000 ∧ big_id_world.uinfo.gid = 2147483648 ∧
    written_records (new_events big_id_world
      (priv_userns_init ⟨file_ok, file_ok, file_ok⟩ big_id_world).world)
      = [("/proc/9/setgroups", "deny\n"), ("/proc/9/gid_map", "0 -2147483648 1\n"),
         ("/proc/9/uid_map", "0 -1294967296 1\n")] ∧
    written_records (new_events big_id_world
      (priv_drop_perm 0 ⟨file_ok, file_ok, file_ok⟩ big_id_world).world)
      = [("/proc/9/setgroups", "deny\n"), ("/proc/9/gid_map", "-2147483648 0 1\n"),
         ("/proc/9/uid_map", "-1294967296 0 1\n")] ∧
    (int_of_bits32 3000000000 = (3000000000 : Int) - 4294967296 ∧
     int_of_bits32 3000000000 < 0 ∧
     toString (int_of_bits32 3000000000) = "-" ++ toString (4294967296 - 3000000000)) :=
  ⟨rfl, rfl, rfl, by decide, by decide,
   (map_record_signed ⟨file_ok, file_ok, file_ok⟩ big_id_world 3000000000
      rfl rfl rfl rfl rfl rfl rfl).2.2.2.1 (by decide) (by decide)⟩

/-! ## The flags that are never set (C19) -/

/-- C19.  In every state after `priv_init`, `userns_ready` and
`disable_setgroups` are 0: no operation assigns them.  So whenever
`priv_drop_perm` runs the setuid-style drop (query non-zero, baseline uid not
0), its first call is `setgroups` with the stored count and group list, which
are 0 and the empty list in target mode. -/
theorem groups_always_reset (nosuid : Bool) (ns : Int) (o : FileOracle) (w : World)
    (hreach : Reachable nosuid w) :
    w.uinfo.userns_ready = 0 ∧ w.uinfo.disable_setgroups = 0 ∧
    (ns ≠ 0 → w.uinfo.uid ≠ 0 →
      ∃ (r : Int) (rest : List Event),
        new_events w (priv_drop_perm ns o w).world
          = Event.setgroups w.uinfo.gids_count w.uinfo.gids r :: rest) ∧
    (w.uinfo.target_mode ≠ 0 → w.uinfo.gids_count = 0 ∧ w.uinfo.gids = []) := by
  obtain ⟨hu, hd, hm⟩ := reachable_uinfo_facts hreach
  have hr : w.uinfo.ready = 1 := (reachable_baseline_inv hreach).1
  refine ⟨hu, hd, ?_, ?_⟩
  · intro hns hU
    obtain ⟨hw, _⟩ := priv_drop_perm_world_setuid (o := o) hns hr hU
    obtain ⟨es, rest, r, htr, a, _, _⟩ := drop_perm_setuid_trace w
    obtain ⟨r1, he⟩ := a hu
    refine ⟨r1, Event.setgid w.uinfo.gid r :: rest, ?_⟩
    rw [hw, new_events_of_trace htr, he]
    rfl
  · intro ht
    rcases hm with h0 | ⟨_, _, _, _, _, _, g, c⟩
    · exact absurd h0 ht
    · exact ⟨c, g⟩

/-- A run of C19: in the target-mode world the setuid-style drop starts with
`setgroups(0, NULL)`, and from the world of user 1000 with the two stored
groups. -/
theorem groups_always_reset_witness :
    Reachable true target_world ∧
    new_events target_world
      (priv_drop_perm 1 ⟨file_ok, file_ok, file_ok⟩ target_world).world
      = [Event.setgroups 0 [] 0, Event.setgid 1000 0, Event.setregid 1000 1000 0,
         Event.setreuid 1000 1000 0] ∧
    new_events user_world
      (priv_drop_perm 1 ⟨file_ok, file_ok, file_ok⟩ user_world).world
      = [Event.setgroups 2 [4, 27] (-1), Event.setgid 100 0, Event.setregid 100 100 0,
         Event.setreuid 1000 1000 0] ∧
    (target_world.uinfo.userns_ready = 0 ∧ target_world.uinfo.disable_setgroups = 0) :=
  ⟨⟨decimal_str2int, target_env, root_start, target_world, [], rfl, rfl⟩,
   by decide, by decide,
   ⟨(groups_always_reset true 1 ⟨file_ok, file_ok, file_ok⟩ target_world
      ⟨decimal_str2int, target_env, root_start, target_world, [], rfl, rfl⟩).1,
    (groups_always_reset true 1 ⟨file_ok, file_ok, file_ok⟩ target_world
      ⟨decimal_str2int, target_env, root_start, target_world, [], rfl, rfl⟩).2.1⟩⟩

end Singularity
